import Mathlib

/-!
Verification development for the riot-rust-api repository.

The Rust sources are shallowly embedded: pure functions become Lean
functions, the stateful crawl loop becomes explicit state passing with a
fuel-indexed step function, machine integers become Int with explicit
wrapping where the source performs an `as` cast, and fallible code returns
Except.  Wall-clock readings (Instant, SystemTime) are modelled as values
supplied by the environment; f64 arithmetic is modelled by exact rationals.
-/

/-! ## JSON values (serde_json::Value)

Numbers are split into integers and floats the way serde_json keeps them
apart: an integral literal answers as_i64 (when it fits i64) and a float
literal does not.  Floats are modelled as exact rationals. -/

inductive Json where
  | null
  | bool (b : Bool)
  | str (s : String)
  | int (n : Int)
  | float (q : ℚ)
  | arr (items : List Json)
  | obj (fields : List (String × Json))

/-- Field lookup on a JSON object (serde_json Value::get for a string key). -/
def Json.get : Json → String → Option Json
  | .obj fields, k => fields.lookup k
  | _, _ => none

def i64Lo : Int := -(2 ^ 63)
def i64Hi : Int := 2 ^ 63

/-- Value::as_i64 — integral numbers inside the i64 range. -/
def Json.asI64 : Json → Option Int
  | .int n => if i64Lo ≤ n ∧ n < i64Hi then some n else none
  | _ => none

/-- Value::as_f64 — any number; integers are cast (modelled exactly). -/
def Json.asF64 : Json → Option ℚ
  | .int n => some (n : ℚ)
  | .float q => some q
  | _ => none

def Json.asStr : Json → Option String
  | .str s => some s
  | _ => none

def Json.asBool : Json → Option Bool
  | .bool b => some b
  | _ => none

def Json.asArray : Json → Option (List Json)
  | .arr items => some items
  | _ => none

/-! ## Integer casts -/

/-- Rust `as i32` (wrapping cast from i64). -/
def wrap32 (n : Int) : Int := (n + 2 ^ 31) % 2 ^ 32 - 2 ^ 31

/-- Rust `as i16` (wrapping cast from i64). -/
def wrap16 (n : Int) : Int := (n + 2 ^ 15) % 2 ^ 16 - 2 ^ 15

/-- i64 → i32 try_into().unwrap_or_default(): 0 outside the i32 range. -/
def tryInto32 (n : Int) : Int :=
  if -(2 ^ 31) ≤ n ∧ n < 2 ^ 31 then n else 0

/-! ## parquet_extract.rs helpers -/

/-- fn as_i32: as_i64, defaulting to 0, then try_into i32 defaulting to 0. -/
def as_i32 (value : Option Json) : Int :=
  tryInto32 ((value.bind Json.asI64).getD 0)

/-- fn as_f64: container.get(key).as_f64(). -/
def as_f64 (container : Option Json) (key : String) : Option ℚ :=
  (container.bind (fun c => c.get key)).bind Json.asF64

/-- fn per_min: None when duration_secs <= 0, else total / (duration / 60). -/
def per_min (total : Int) (duration_secs : Int) : Option ℚ :=
  if duration_secs ≤ 0 then none
  else some ((total : ℚ) / ((duration_secs : ℚ) / 60))

/-- A Rust i32 iterator sum: a left fold with wrapping i32 addition (the
release-profile semantics of the i32 sums in extract_team_parquet; a
debug build would panic on the overflowing step instead). -/
def sum_i32 (xs : List Int) : Int :=
  xs.foldl (fun acc x => wrap32 (acc + x)) 0

/-! ## Player rows (struct PlayerRow and the per-participant extraction) -/

structure PlayerRow where
  match_id : String
  game_creation : Int
  game_duration : Int
  queue_id : Int
  game_version : String
  team_id : Int
  puuid : String
  champion_id : Int
  champion_name : String
  role : String
  win : Bool
  kills : Int
  deaths : Int
  assists : Int
  champ_level : Int
  gold_earned : Int
  gold_spent : Int
  total_minions_killed : Int
  neutral_minions_killed : Int
  total_cs : Int
  damage_to_champions : Int
  damage_to_objectives : Int
  damage_to_turrets : Int
  turret_takedowns : Int
  inhibitor_takedowns : Int
  vision_score : Int
  wards_placed : Int
  wards_killed : Int
  control_wards_placed : Int
  damage_per_min : Option ℚ
  gold_per_min : Option ℚ
  team_damage_percentage : Option ℚ
  kill_participation : Option ℚ
  kda : Option ℚ
  vision_score_per_min : Option ℚ
  lane_minions_first10 : Option ℚ
  jungle_cs_before10 : Option ℚ
deriving DecidableEq

/-- One participant record of extract_player_parquet's inner loop. -/
def player_row_of_participant (match_id : String) (game_creation : Int)
    (game_duration : Int) (queue_id : Int) (game_version : String)
    (participant : Json) : PlayerRow :=
  let total_minions_killed := as_i32 (participant.get "totalMinionsKilled")
  let neutral_minions_killed := as_i32 (participant.get "neutralMinionsKilled")
  let challenges := participant.get "challenges"
  { match_id := match_id
    game_creation := game_creation
    game_duration := game_duration
    queue_id := queue_id
    game_version := game_version
    team_id := wrap32 (((participant.get "teamId").bind Json.asI64).getD 0)
    puuid := (((participant.get "puuid").bind Json.asStr)).getD ""
    champion_id := wrap32 (((participant.get "championId").bind Json.asI64).getD 0)
    champion_name := (((participant.get "championName").bind Json.asStr)).getD ""
    role :=
      ((((participant.get "teamPosition").bind Json.asStr).filter
          (fun s => !s.isEmpty)).orElse
        (fun _ => (participant.get "individualPosition").bind Json.asStr)).getD ""
    win := (((participant.get "win").bind Json.asBool)).getD false
    kills := as_i32 (participant.get "kills")
    deaths := as_i32 (participant.get "deaths")
    assists := as_i32 (participant.get "assists")
    champ_level := as_i32 (participant.get "champLevel")
    gold_earned := as_i32 (participant.get "goldEarned")
    gold_spent := as_i32 (participant.get "goldSpent")
    total_minions_killed := total_minions_killed
    neutral_minions_killed := neutral_minions_killed
    total_cs := wrap32 (total_minions_killed + neutral_minions_killed)
    damage_to_champions := as_i32 (participant.get "totalDamageDealtToChampions")
    damage_to_objectives := as_i32 (participant.get "damageDealtToObjectives")
    damage_to_turrets := as_i32 (participant.get "damageDealtToTurrets")
    turret_takedowns := as_i32 (participant.get "turretTakedowns")
    inhibitor_takedowns := as_i32 (participant.get "inhibitorTakedowns")
    vision_score := as_i32 (participant.get "visionScore")
    wards_placed := as_i32 (participant.get "wardsPlaced")
    wards_killed := as_i32 (participant.get "wardsKilled")
    control_wards_placed := as_i32 (participant.get "visionWardsBoughtInGame")
    damage_per_min := as_f64 challenges "damagePerMinute"
    gold_per_min := as_f64 challenges "goldPerMinute"
    team_damage_percentage := as_f64 challenges "teamDamagePercentage"
    kill_participation := as_f64 challenges "killParticipation"
    kda := as_f64 challenges "kda"
    vision_score_per_min := as_f64 challenges "visionScorePerMinute"
    lane_minions_first10 := as_f64 challenges "laneMinionsFirst10Minutes"
    jungle_cs_before10 := as_f64 challenges "jungleCsBefore10Minutes" }

/-- extract_player_parquet, per document: the rows contributed by one parsed
file (file_stem is the path's stem, the matchId fallback).  A missing
metadata / info / participants section skips the file (empty contribution). -/
def player_rows_of_doc (file_stem : String) (parsed : Json) : List PlayerRow :=
  match parsed.get "metadata", parsed.get "info" with
  | some metadata, some info =>
    match (info.get "participants").bind Json.asArray with
    | some participants =>
      let match_id := (((metadata.get "matchId").bind Json.asStr)).getD file_stem
      let game_creation := ((info.get "gameCreation").bind Json.asI64).getD 0
      let game_duration := wrap32 (((info.get "gameDuration").bind Json.asI64).getD 0)
      let queue_id := wrap32 (((info.get "queueId").bind Json.asI64).getD 0)
      let game_version := (((info.get "gameVersion").bind Json.asStr)).getD ""
      participants.map
        (player_row_of_participant match_id game_creation game_duration
          queue_id game_version)
    | none => []
  | _, _ => []

/-- The full player extraction over a store of (file stem, parsed JSON) docs. -/
def extract_player_rows (docs : List (String × Json)) : List PlayerRow :=
  docs.flatMap (fun d => player_rows_of_doc d.1 d.2)

/-! ## Team rows (struct TeamRow and extract_team_parquet) -/

structure TeamRow where
  match_id : String
  platform_id : Option String
  queue_id : Int
  game_version : String
  game_creation : Int
  game_duration : Int
  team_id : Int
  team_side : String
  team_win : Int
  top_champion_id : Option Int
  jungle_champion_id : Option Int
  middle_champion_id : Option Int
  bottom_champion_id : Option Int
  utility_champion_id : Option Int
  team_kills : Int
  team_deaths : Int
  team_assists : Int
  team_gold_earned : Int
  team_damage_to_champions : Int
  team_vision_score : Int
  team_cs_total : Int
  team_gold_per_min : Option ℚ
  team_damage_per_min : Option ℚ
  team_vision_score_per_min : Option ℚ
  team_cs_per_min : Option ℚ
  team_towers_destroyed : Int
  team_inhibitors_destroyed : Int
  team_dragons : Int
  team_barons : Int
  team_heralds : Int
  team_plates : Option Int
  first_blood : Option Bool
  first_tower : Option Bool
  first_inhibitor : Option Bool
  first_baron : Option Bool
  first_dragon : Option Bool
  first_herald : Option Bool
deriving DecidableEq, Inhabited

/-- ASCII-only lowercase folding (Rust char::to_ascii_lowercase). -/
def asciiLower (c : Char) : Char :=
  if 'A' ≤ c ∧ c ≤ 'Z' then Char.ofNat (c.toNat + 32) else c

/-- Rust str::eq_ignore_ascii_case. -/
def eqIgnoreAsciiCase (a b : String) : Bool :=
  a.data.map asciiLower == b.data.map asciiLower

/-- fn find_role_champion. -/
def find_role_champion (team_participants : List Json) (role : String) : Option Int :=
  ((team_participants.find? (fun p =>
      (((p.get "teamPosition").bind Json.asStr).map
        (fun s => eqIgnoreAsciiCase s role)).getD false)).bind
    (fun p => p.get "championId")).bind Json.asI64 |>.map wrap32

/-- fn objective_kills. -/
def objective_kills (objectives : Option Json) (key : String) : Int :=
  wrap32 ((((objectives.bind (fun o => o.get key)).bind
    (fun obj => obj.get "kills")).bind Json.asI64).getD 0)

/-- fn objective_first. -/
def objective_first (objectives : Option Json) (key : String) : Option Bool :=
  ((objectives.bind (fun o => o.get key)).bind
    (fun obj => obj.get "first")).bind Json.asBool

/-- fn team_objectives (returned tuple flattened into a structure). -/
structure TeamObjectives where
  tower : Int
  inhibitor : Int
  dragon : Int
  baron : Int
  herald : Int
  plates : Option Int
  first_blood : Option Bool
  first_tower : Option Bool
  first_inhibitor : Option Bool
  first_baron : Option Bool
  first_dragon : Option Bool
  first_herald : Option Bool

def team_objectives (team : Json) : TeamObjectives :=
  let objectives := team.get "objectives"
  { tower := objective_kills objectives "tower"
    inhibitor := objective_kills objectives "inhibitor"
    dragon := objective_kills objectives "dragon"
    baron := objective_kills objectives "baron"
    herald := objective_kills objectives "riftHerald"
    plates := (((objectives.bind (fun o => o.get "tower")).bind
        (fun t => t.get "plates")).bind Json.asI64).map wrap32
    first_blood := objective_first objectives "champion"
    first_tower := objective_first objectives "tower"
    first_inhibitor := objective_first objectives "inhibitor"
    first_baron := objective_first objectives "baron"
    first_dragon := objective_first objectives "dragon"
    first_herald := objective_first objectives "riftHerald" }

/-- Does this participant carry the given teamId? (the filter of the
per-team participant selection in extract_team_parquet). -/
def participant_on_team (team_id : Int) (p : Json) : Bool :=
  ((p.get "teamId").bind Json.asI64) == some team_id

/-- One team record of extract_team_parquet's inner loop (None when the
team has no teamId and is skipped). -/
def team_row_of_team (match_id : String) (platform_id : Option String)
    (game_creation game_duration queue_id : Int) (game_version : String)
    (participants : List Json) (team : Json) : Option TeamRow :=
  match (team.get "teamId").bind Json.asI64 with
  | none => none
  | some team_id =>
    let team_participants := participants.filter (participant_on_team team_id)
    let team_kills := sum_i32 (team_participants.map (fun p => as_i32 (p.get "kills")))
    let team_deaths := sum_i32 (team_participants.map (fun p => as_i32 (p.get "deaths")))
    let team_assists := sum_i32 (team_participants.map (fun p => as_i32 (p.get "assists")))
    let team_gold_earned :=
      (team_participants.map (fun p => as_i32 (p.get "goldEarned"))).sum
    let team_damage_to_champions :=
      (team_participants.map
        (fun p => as_i32 (p.get "totalDamageDealtToChampions"))).sum
    let team_vision_score :=
      (team_participants.map (fun p => as_i32 (p.get "visionScore"))).sum
    let team_cs_total :=
      sum_i32 (team_participants.map (fun p =>
        wrap32 (as_i32 (p.get "totalMinionsKilled") +
          as_i32 (p.get "neutralMinionsKilled"))))
    let team_win := (((team.get "win").bind Json.asBool)).getD false
    let obj := team_objectives team
    some
      { match_id := match_id
        platform_id := platform_id
        queue_id := queue_id
        game_version := game_version
        game_creation := game_creation
        game_duration := game_duration
        team_id := wrap16 team_id
        team_side := if team_id == 100 then "blue" else "red"
        team_win := if team_win then 1 else 0
        top_champion_id := find_role_champion team_participants "TOP"
        jungle_champion_id := find_role_champion team_participants "JUNGLE"
        middle_champion_id := find_role_champion team_participants "MIDDLE"
        bottom_champion_id := find_role_champion team_participants "BOTTOM"
        utility_champion_id := find_role_champion team_participants "UTILITY"
        team_kills := team_kills
        team_deaths := team_deaths
        team_assists := team_assists
        team_gold_earned := team_gold_earned
        team_damage_to_champions := team_damage_to_champions
        team_vision_score := team_vision_score
        team_cs_total := team_cs_total
        team_gold_per_min := per_min team_gold_earned game_duration
        team_damage_per_min := per_min team_damage_to_champions game_duration
        team_vision_score_per_min := per_min team_vision_score game_duration
        team_cs_per_min := per_min team_cs_total game_duration
        team_towers_destroyed := obj.tower
        team_inhibitors_destroyed := obj.inhibitor
        team_dragons := obj.dragon
        team_barons := obj.baron
        team_heralds := obj.herald
        team_plates := obj.plates
        first_blood := obj.first_blood
        first_tower := obj.first_tower
        first_inhibitor := obj.first_inhibitor
        first_baron := obj.first_baron
        first_dragon := obj.first_dragon
        first_herald := obj.first_herald }

/-- extract_team_parquet, per document. -/
def team_rows_of_doc (file_stem : String) (parsed : Json) : List TeamRow :=
  match parsed.get "metadata", parsed.get "info" with
  | some metadata, some info =>
    match (info.get "participants").bind Json.asArray,
        (info.get "teams").bind Json.asArray with
    | some participants, some teams =>
      let match_id := (((metadata.get "matchId").bind Json.asStr)).getD file_stem
      let platform_id :=
        (((metadata.get "platformId").bind Json.asStr)).orElse
          (fun _ => (info.get "platformId").bind Json.asStr)
      let game_creation := ((info.get "gameCreation").bind Json.asI64).getD 0
      let game_duration := wrap32 (((info.get "gameDuration").bind Json.asI64).getD 0)
      let queue_id := wrap32 (((info.get "queueId").bind Json.asI64).getD 0)
      let game_version := (((info.get "gameVersion").bind Json.asStr)).getD ""
      teams.filterMap
        (team_row_of_team match_id platform_id game_creation game_duration
          queue_id game_version participants)
    | _, _ => []
  | _, _ => []

/-- The full team extraction over a store of (file stem, parsed JSON) docs. -/
def extract_team_rows (docs : List (String × Json)) : List TeamRow :=
  docs.flatMap (fun d => team_rows_of_doc d.1 d.2)

/-! ## Dataframes (polars Series / DataFrame::new column lists)

A series is a named, typed column; a dataframe is the ordered list of its
series exactly as passed to DataFrame::new. -/

inductive Series where
  | sstr (name : String) (vals : List String)
  | sint (name : String) (vals : List Int)
  | sbool (name : String) (vals : List Bool)
  | soptF (name : String) (vals : List (Option ℚ))
  | soptI (name : String) (vals : List (Option Int))
  | soptS (name : String) (vals : List (Option String))
  | soptB (name : String) (vals : List (Option Bool))

def Series.name : Series → String
  | .sstr n _ => n
  | .sint n _ => n
  | .sbool n _ => n
  | .soptF n _ => n
  | .soptI n _ => n
  | .soptS n _ => n
  | .soptB n _ => n

/-- fn build_dataframe (player table): the 37 series in source order. -/
def build_dataframe (rows : List PlayerRow) : List Series :=
  [ .sstr "match_id" (rows.map PlayerRow.match_id),
    .sint "game_creation" (rows.map PlayerRow.game_creation),
    .sint "game_duration" (rows.map PlayerRow.game_duration),
    .sint "queue_id" (rows.map PlayerRow.queue_id),
    .sstr "game_version" (rows.map PlayerRow.game_version),
    .sint "team_id" (rows.map PlayerRow.team_id),
    .sstr "puuid" (rows.map PlayerRow.puuid),
    .sint "champion_id" (rows.map PlayerRow.champion_id),
    .sstr "champion_name" (rows.map PlayerRow.champion_name),
    .sstr "role" (rows.map PlayerRow.role),
    .sbool "win" (rows.map PlayerRow.win),
    .sint "kills" (rows.map PlayerRow.kills),
    .sint "deaths" (rows.map PlayerRow.deaths),
    .sint "assists" (rows.map PlayerRow.assists),
    .sint "champ_level" (rows.map PlayerRow.champ_level),
    .sint "gold_earned" (rows.map PlayerRow.gold_earned),
    .sint "gold_spent" (rows.map PlayerRow.gold_spent),
    .sint "total_minions_killed" (rows.map PlayerRow.total_minions_killed),
    .sint "neutral_minions_killed" (rows.map PlayerRow.neutral_minions_killed),
    .sint "total_cs" (rows.map PlayerRow.total_cs),
    .sint "damage_to_champions" (rows.map PlayerRow.damage_to_champions),
    .sint "damage_to_objectives" (rows.map PlayerRow.damage_to_objectives),
    .sint "damage_to_turrets" (rows.map PlayerRow.damage_to_turrets),
    .sint "turret_takedowns" (rows.map PlayerRow.turret_takedowns),
    .sint "inhibitor_takedowns" (rows.map PlayerRow.inhibitor_takedowns),
    .sint "vision_score" (rows.map PlayerRow.vision_score),
    .sint "wards_placed" (rows.map PlayerRow.wards_placed),
    .sint "wards_killed" (rows.map PlayerRow.wards_killed),
    .sint "control_wards_placed" (rows.map PlayerRow.control_wards_placed),
    .soptF "damage_per_min" (rows.map PlayerRow.damage_per_min),
    .soptF "gold_per_min" (rows.map PlayerRow.gold_per_min),
    .soptF "team_damage_percentage" (rows.map PlayerRow.team_damage_percentage),
    .soptF "kill_participation" (rows.map PlayerRow.kill_participation),
    .soptF "kda" (rows.map PlayerRow.kda),
    .soptF "vision_score_per_min" (rows.map PlayerRow.vision_score_per_min),
    .soptF "lane_minions_first10" (rows.map PlayerRow.lane_minions_first10),
    .soptF "jungle_cs_before10" (rows.map PlayerRow.jungle_cs_before10) ]

/-- fn build_team_dataframe (team table): the series in source order. -/
def build_team_dataframe (rows : List TeamRow) : List Series :=
  [ .sstr "match_id" (rows.map TeamRow.match_id),
    .soptS "platform_id" (rows.map TeamRow.platform_id),
    .sint "queue_id" (rows.map TeamRow.queue_id),
    .sstr "game_version" (rows.map TeamRow.game_version),
    .sint "game_creation" (rows.map TeamRow.game_creation),
    .sint "game_duration" (rows.map TeamRow.game_duration),
    .sint "team_id" (rows.map TeamRow.team_id),
    .sstr "team_side" (rows.map TeamRow.team_side),
    .sint "team_win" (rows.map TeamRow.team_win),
    .soptI "top_champion_id" (rows.map TeamRow.top_champion_id),
    .soptI "jungle_champion_id" (rows.map TeamRow.jungle_champion_id),
    .soptI "middle_champion_id" (rows.map TeamRow.middle_champion_id),
    .soptI "bottom_champion_id" (rows.map TeamRow.bottom_champion_id),
    .soptI "utility_champion_id" (rows.map TeamRow.utility_champion_id),
    .sint "team_kills" (rows.map TeamRow.team_kills),
    .sint "team_deaths" (rows.map TeamRow.team_deaths),
    .sint "team_assists" (rows.map TeamRow.team_assists),
    .sint "team_gold_earned" (rows.map TeamRow.team_gold_earned),
    .sint "team_damage_to_champions" (rows.map TeamRow.team_damage_to_champions),
    .sint "team_vision_score" (rows.map TeamRow.team_vision_score),
    .sint "team_cs_total" (rows.map TeamRow.team_cs_total),
    .soptF "team_gold_per_min" (rows.map TeamRow.team_gold_per_min),
    .soptF "team_damage_per_min" (rows.map TeamRow.team_damage_per_min),
    .soptF "team_vision_score_per_min" (rows.map TeamRow.team_vision_score_per_min),
    .soptF "team_cs_per_min" (rows.map TeamRow.team_cs_per_min),
    .sint "team_towers_destroyed" (rows.map TeamRow.team_towers_destroyed),
    .sint "team_inhibitors_destroyed" (rows.map TeamRow.team_inhibitors_destroyed),
    .sint "team_dragons" (rows.map TeamRow.team_dragons),
    .sint "team_barons" (rows.map TeamRow.team_barons),
    .sint "team_heralds" (rows.map TeamRow.team_heralds),
    .soptI "team_plates" (rows.map TeamRow.team_plates),
    .soptB "first_blood" (rows.map TeamRow.first_blood),
    .soptB "first_tower" (rows.map TeamRow.first_tower),
    .soptB "first_inhibitor" (rows.map TeamRow.first_inhibitor),
    .soptB "first_baron" (rows.map TeamRow.first_baron),
    .soptB "first_dragon" (rows.map TeamRow.first_dragon),
    .soptB "first_herald" (rows.map TeamRow.first_herald) ]

/-! ## kraken.rs — the crawler

Wall-clock readings are abstracted into the environment: the duration and
idle checks of the main loop become per-iteration boolean oracles, and
SystemTime::now for the recency filter becomes a fixed millisecond value.
The HTTP client is an oracle of Except-valued responses; stderr logging is
a side effect with no modelled state.  The loop itself is fuel-indexed:
running out of fuel returns like a timer-triggered exit would. -/

/-- Rust str::to_lowercase, on the character list (ASCII folding; the
mode strings compared against are ASCII). -/
def to_lowercase (s : String) : String := String.mk (s.data.map Char.toLower)

/-- Rust str::to_uppercase, on the character list (ASCII folding; tier and
role tags are ASCII). -/
def to_uppercase (s : String) : String := String.mk (s.data.map Char.toUpper)

/-- Rust str::trim. -/
def trim_str (s : String) : String :=
  String.mk (((s.data.dropWhile Char.isWhitespace).reverse.dropWhile
    Char.isWhitespace).reverse)

/-- Rust str::split(sep) on a character list. -/
def split_char (sep : Char) : List Char → List (List Char)
  | [] => [[]]
  | c :: rest =>
    let r := split_char sep rest
    if c = sep then [] :: r
    else
      match r with
      | h :: t => (c :: h) :: t
      | [] => [[c]]

inductive KrakenMode where
  | Explore
  | Focus
  | SeedOnly
deriving DecidableEq

/-- Mode parsing of kraken_absorb_run: to_lowercase, unknown values fall
back to Explore. -/
def parse_mode (mode : String) : KrakenMode :=
  if to_lowercase mode = "explore" then .Explore
  else if to_lowercase mode = "focus" then .Focus
  else if to_lowercase mode = "seed-only" then .SeedOnly
  else .Explore

/-- max_new_focus by mode (kraken_absorb_run). -/
def max_new_focus_of (mode : KrakenMode) : Nat :=
  match mode with
  | .Explore => 10
  | .Focus => 5
  | .SeedOnly => 0

structure KrakenArgs where
  seed_puuid : Option String
  seed_lines : List String
  max_matches_per_player : Nat
  max_matches_total : Option Nat
  idle_exit_active : Bool
  role_focus : Option String
  allow_ranks : Option String

/-- Errors that abort kraken_absorb_run (all other failures are logged and
skipped inside the loop).  Tier-lookup failures record the player and the
message of the underlying client error. -/
inductive CrawlError where
  | noSeedProvided
  | noSeedsEnqueued
  | tierLookup (puuid : String) (msg : String)
deriving DecidableEq

structure CrawlEnv where
  matchIdsOf : String → Except String (List String)
  matchJsonOf : String → Except String Json
  tierOf : String → Except String (Option String)
  saveOk : String → Bool
  nowMillis : Int
  durationExpired : Nat → Bool
  idleExpired : Nat → Bool

/-- HashSet-style insert on a membership list. -/
def setInsert (x : String) (s : List String) : List String :=
  if x ∈ s then s else x :: s

/-- HashMap-style insert on an association list. -/
def mapInsert (k : String) (v : Nat) (m : List (String × Nat)) :
    List (String × Nat) :=
  (k, v) :: m.filter (fun kv => kv.1 ≠ k)

structure CrawlState where
  queue : List String
  seen_puuids : List String
  rank_cache : List (String × Option String)
  matches_per_player : List (String × Nat)
  seen_match_ids : List String
  downloaded_matches : Nat
  written_matches : Nat
deriving DecidableEq

/-- Result of kraken_maybe_enqueue_player: the enqueued flag plus the
updated seen set, frontier and tier cache. -/
structure EnqueueResult where
  enqueued : Bool
  seen_puuids : List String
  queue : List String
  rank_cache : List (String × Option String)
deriving DecidableEq

/-- The Focus-mode slot check of kraken_maybe_enqueue_player: blocked when
called from a per-match slot count that has reached 0 in Focus mode. -/
def focus_blocked (mode : KrakenMode)
    (remaining_focus_slots : Option Nat) : Bool :=
  match remaining_focus_slots with
  | some limit => mode == .Focus && limit == 0
  | none => false

/-- The tail of kraken_maybe_enqueue_player after the rank filter: the
Focus slot check followed by the priority placement (front of the frontier
when the player has fewer than 10 downloaded matches, else back). -/
def enqueue_tail (mode : KrakenMode) (remaining_focus_slots : Option Nat)
    (current_match_count : Nat) (puuid : String) (seen_puuids : List String)
    (queue : List String) (cache : List (String × Option String)) :
    EnqueueResult :=
  if focus_blocked mode remaining_focus_slots then
    ⟨false, setInsert puuid seen_puuids, queue, cache⟩
  else
    ⟨true, setInsert puuid seen_puuids,
      if current_match_count < 10 then puuid :: queue else queue ++ [puuid],
      cache⟩

/-- The rank-allow-list decision of kraken_maybe_enqueue_player once the
tier (cached or freshly looked up, already uppercased) is at hand: a
present tier outside the allow-list marks the player seen without
enqueueing; an absent tier passes the filter. -/
def rank_filter_tail (allowed : List String) (tier : Option String)
    (mode : KrakenMode) (remaining_focus_slots : Option Nat)
    (current_match_count : Nat) (puuid : String)
    (seen_puuids : List String) (queue : List String)
    (cache : List (String × Option String)) : EnqueueResult :=
  match tier with
  | some tier_value =>
    if tier_value ∉ allowed then
      ⟨false, setInsert puuid seen_puuids, queue, cache⟩
    else
      enqueue_tail mode remaining_focus_slots current_match_count puuid
        seen_puuids queue cache
  | none =>
    enqueue_tail mode remaining_focus_slots current_match_count puuid
      seen_puuids queue cache

/-- fn kraken_maybe_enqueue_player.  The tier lookup goes through the
client oracle; its failure propagates (the Rust code applies `?` to it). -/
def kraken_maybe_enqueue_player (env : CrawlEnv)
    (allowed_ranks : Option (List String)) (mode : KrakenMode)
    (remaining_focus_slots : Option Nat) (current_match_count : Nat)
    (puuid : String) (seen_puuids : List String) (queue : List String)
    (rank_cache : List (String × Option String)) :
    Except CrawlError EnqueueResult :=
  if puuid ∈ seen_puuids then
    .ok ⟨false, seen_puuids, queue, rank_cache⟩
  else
    match allowed_ranks with
    | none =>
      .ok (enqueue_tail mode remaining_focus_slots current_match_count puuid
        seen_puuids queue rank_cache)
    | some allowed =>
      match rank_cache.lookup puuid with
      | some cached =>
        .ok (rank_filter_tail allowed cached mode remaining_focus_slots
          current_match_count puuid seen_puuids queue rank_cache)
      | none =>
        match env.tierOf puuid with
        | .error e => .error (.tierLookup puuid e)
        | .ok t =>
          .ok (rank_filter_tail allowed (t.map to_uppercase) mode
            remaining_focus_slots current_match_count puuid seen_puuids
            queue ((puuid, t.map to_uppercase) :: rank_cache))

/-- fn is_recent_match: keep matches whose gameCreation is within
max_age_days of the wall clock; keep when the timestamp is missing. -/
def is_recent_match (env : CrawlEnv) (match_json : Json)
    (max_age_days : Int) : Bool :=
  match (match_json.get "info").bind (fun i => (Json.get i "gameCreation")) with
  | some gc =>
    match gc.asI64 with
    | some game_creation =>
      game_creation ≥ env.nowMillis - max_age_days * 24 * 60 * 60 * 1000
    | none => true
  | none => true

/-- fn is_ranked_match: queueId present and equal to 420. -/
def is_ranked_match (match_json : Json) : Bool :=
  match ((match_json.get "info").bind (fun i => Json.get i "queueId")).bind
      Json.asI64 with
  | some queue_id => queue_id == 420
  | none => false

/-- fn kraken_match_passes_roles. -/
def kraken_match_passes_roles (match_json : Json)
    (role_focus : Option (List String)) : Bool :=
  match role_focus with
  | none => true
  | some focus =>
    match ((match_json.get "info").bind (fun i => Json.get i "participants")).bind
        Json.asArray with
    | some participants =>
      participants.any (fun participant =>
        match ((participant.get "teamPosition").bind Json.asStr).orElse
            (fun _ => (participant.get "individualPosition").bind Json.asStr) with
        | some role => to_uppercase role ∈ focus
        | none => false)
    | none => false

/-- Comma-splitting of --role-focus / --allow-ranks: trim, uppercase, drop
empties. -/
def split_upper_set (raw : String) : List String :=
  (((split_char ',' raw.data).map
    (fun r => to_uppercase (trim_str (String.mk r)))).filter
      (fun r => !r.isEmpty))

/-- The per-participant absorption of one fetched match (the inner
for-participant loop of kraken_absorb_run).  Returns the updated seen set,
frontier, tier cache and the count of enqueues made for this match. -/
def absorb_participants (env : CrawlEnv)
    (allowed_ranks : Option (List String)) (mode : KrakenMode)
    (max_new_focus : Nat) (matches_per_player : List (String × Nat)) :
    List Json → List String → List String →
    List (String × Option String) → Nat →
    Except CrawlError (List String × List String ×
      List (String × Option String) × Nat)
  | [], seen, queue, cache, new_added => .ok (seen, queue, cache, new_added)
  | participant :: rest, seen, queue, cache, new_added =>
    match participant.asStr with
    | none =>
        absorb_participants env allowed_ranks mode max_new_focus
          matches_per_player rest seen queue cache new_added
    | some puuid =>
      if mode = .SeedOnly then
        absorb_participants env allowed_ranks mode max_new_focus
          matches_per_player rest (setInsert puuid seen) queue cache new_added
      else if mode = .Focus ∧ new_added ≥ max_new_focus then
        absorb_participants env allowed_ranks mode max_new_focus
          matches_per_player rest (setInsert puuid seen) queue cache new_added
      else
        let current_count := (matches_per_player.lookup puuid).getD 0
        match kraken_maybe_enqueue_player env allowed_ranks mode
            (some (max_new_focus - new_added)) current_count puuid seen queue
            cache with
        | .error e => .error e
        | .ok r =>
          absorb_participants env allowed_ranks mode max_new_focus
            matches_per_player rest r.seen_puuids r.queue r.rank_cache
            (if r.enqueued then new_added + 1 else new_added)

/-- The written_matches >= max_matches_total check (shared by the loop
head and the per-match inner loop). -/
def total_cap_reached (max_matches_total : Option Nat) (written : Nat) : Bool :=
  match max_matches_total with
  | some max_total => written ≥ max_total
  | none => false

/-- The per-match inner loop of kraken_absorb_run for one popped player:
walks the fetched match ids, downloading, filtering, absorbing
co-participants and saving.  Returns the updated state plus the final
downloaded_for_puuid counter. -/
def process_match_ids (env : CrawlEnv) (args : KrakenArgs)
    (allowed_ranks role_focus : Option (List String)) (mode : KrakenMode)
    (max_new_focus : Nat) :
    List String → CrawlState → Nat → Except CrawlError (CrawlState × Nat)
  | [], st, downloaded_for_puuid => .ok (st, downloaded_for_puuid)
  | match_id :: rest, st, downloaded_for_puuid =>
    if total_cap_reached args.max_matches_total st.written_matches then
      .ok (st, downloaded_for_puuid)
    else if downloaded_for_puuid ≥ args.max_matches_per_player then
      .ok (st, downloaded_for_puuid)
    else if match_id ∈ st.seen_match_ids then
      process_match_ids env args allowed_ranks role_focus mode max_new_focus
        rest st downloaded_for_puuid
    else
      let st := { st with
        seen_match_ids := setInsert match_id st.seen_match_ids,
        downloaded_matches := st.downloaded_matches + 1 }
      match env.matchJsonOf match_id with
      | .error _ =>
        process_match_ids env args allowed_ranks role_focus mode max_new_focus
          rest st downloaded_for_puuid
      | .ok match_json =>
        if !is_recent_match env match_json 90 then
          process_match_ids env args allowed_ranks role_focus mode
            max_new_focus rest st downloaded_for_puuid
        else if !is_ranked_match match_json then
          process_match_ids env args allowed_ranks role_focus mode
            max_new_focus rest st downloaded_for_puuid
        else
          let write_allowed := kraken_match_passes_roles match_json role_focus
          let participants :=
            (((match_json.get "metadata").bind
              (fun m => Json.get m "participants")).bind Json.asArray).getD []
          match absorb_participants env allowed_ranks mode max_new_focus
              st.matches_per_player participants st.seen_puuids st.queue
              st.rank_cache 0 with
          | .error e => .error e
          | .ok r =>
            let st := { st with
              seen_puuids := r.1, queue := r.2.1, rank_cache := r.2.2.1 }
            if write_allowed then
              if env.saveOk match_id then
                let st := { st with written_matches := st.written_matches + 1 }
                process_match_ids env args allowed_ranks role_focus mode
                  max_new_focus rest st (downloaded_for_puuid + 1)
              else
                process_match_ids env args allowed_ranks role_focus mode
                  max_new_focus rest st downloaded_for_puuid
            else
              process_match_ids env args allowed_ranks role_focus mode
                max_new_focus rest st (downloaded_for_puuid + 1)

/-- The main while-loop of kraken_absorb_run, fuel-indexed.  iter counts
loop iterations for the wall-clock oracles. -/
def crawl_loop (env : CrawlEnv) (args : KrakenArgs)
    (allowed_ranks role_focus : Option (List String)) (mode : KrakenMode)
    (max_new_focus : Nat) :
    Nat → Nat → CrawlState → Except CrawlError CrawlState
  | 0, _, st => .ok st
  | fuel + 1, iter, st =>
    if st.queue = [] then .ok st
    else if env.durationExpired iter then .ok st
    else if total_cap_reached args.max_matches_total st.written_matches then
      .ok st
    else if args.idle_exit_active ∧ st.written_matches > 0 ∧
        env.idleExpired iter then
      .ok st
    else
      match st.queue with
      | [] => .ok st
      | puuid :: queue_rest =>
        let st := { st with queue := queue_rest }
        let downloaded_for_puuid := (st.matches_per_player.lookup puuid).getD 0
        if downloaded_for_puuid ≥ args.max_matches_per_player then
          crawl_loop env args allowed_ranks role_focus mode max_new_focus
            fuel (iter + 1) st
        else
          match env.matchIdsOf puuid with
          | .error _ =>
            crawl_loop env args allowed_ranks role_focus mode max_new_focus
              fuel (iter + 1) st
          | .ok match_ids =>
            match process_match_ids env args allowed_ranks role_focus mode
                max_new_focus match_ids st downloaded_for_puuid with
            | .error e => .error e
            | .ok r =>
              let st := { r.1 with
                matches_per_player :=
                  mapInsert puuid r.2 r.1.matches_per_player }
              crawl_loop env args allowed_ranks role_focus mode max_new_focus
                fuel (iter + 1) st

/-- The seed-admission loop of kraken_absorb_run. -/
def enqueue_seeds (env : CrawlEnv) (allowed_ranks : Option (List String))
    (mode : KrakenMode) (matches_per_player : List (String × Nat)) :
    List String → List String → List String →
    List (String × Option String) →
    Except CrawlError (List String × List String × List (String × Option String))
  | [], seen, queue, cache => .ok (seen, queue, cache)
  | seed :: rest, seen, queue, cache =>
    let current_count := (matches_per_player.lookup seed).getD 0
    match kraken_maybe_enqueue_player env allowed_ranks mode none
        current_count seed seen queue cache with
    | .error e => .error e
    | .ok r =>
      enqueue_seeds env allowed_ranks mode matches_per_player rest
        r.seen_puuids r.queue r.rank_cache

/-- The seed list of kraken_absorb_run: the trimmed --seed-puuid (when
non-empty) followed by the trimmed non-empty lines of the seed file. -/
def collect_seeds (args : KrakenArgs) : List String :=
  (match args.seed_puuid with
    | some seed =>
      if (trim_str seed).isEmpty then [] else [trim_str seed]
    | none => []) ++
  ((args.seed_lines.map trim_str).filter (fun l => !l.isEmpty))

/-- fn kraken_absorb_run with the parsed mode supplied explicitly (the
function reads args.mode only to parse it; see kraken_absorb_run_state). -/
def kraken_absorb_with_mode (env : CrawlEnv) (args : KrakenArgs)
    (mode : KrakenMode) (fuel : Nat) : Except CrawlError CrawlState :=
  if (collect_seeds args).isEmpty then .error .noSeedProvided
  else
    let role_focus := args.role_focus.map split_upper_set
    let allowed_ranks := args.allow_ranks.map split_upper_set
    match enqueue_seeds env allowed_ranks mode [] (collect_seeds args)
        [] [] [] with
    | .error e => .error e
    | .ok r =>
      if r.2.1.isEmpty then .error .noSeedsEnqueued
      else
        let st : CrawlState :=
          { queue := r.2.1, seen_puuids := r.1, rank_cache := r.2.2,
            matches_per_player := [], seen_match_ids := [],
            downloaded_matches := 0, written_matches := 0 }
        crawl_loop env args allowed_ranks role_focus mode
          (max_new_focus_of mode) fuel 0 st

/-- fn kraken_absorb_run, returning the final crawl state (the Rust
function returns unit; the state is exposed for the theorems).  The --mode
string is passed alongside the other arguments and is read exactly once,
to parse it. -/
def kraken_absorb_run_state (env : CrawlEnv) (args : KrakenArgs)
    (mode_arg : String) (fuel : Nat) : Except CrawlError CrawlState :=
  kraken_absorb_with_mode env args (parse_mode mode_arg) fuel

/-! ## riot_api.rs — the rate limiter

RateLimiter::wait is modelled as an admission predicate over traces of
admission instants (Nat milliseconds).  Since prune runs at the head of
every wait call and timestamps are appended in wall-clock order, the deque
content at a check instant t is exactly the recorded instants a with
t - a <= window, i.e. t <= a + window; wait admits (appends and returns)
exactly when, for each of the two windows, either the pruned deque is
below the cap or its front entry has aged at least a full window
(duration_since(front) < window fails). -/

def rl_window_short : Nat := 1000
def rl_window_long : Nat := 120000

/-- The deque content after prune at instant t: recorded instants still
inside the window (prune pops strictly older entries only). -/
def pruned (h : List Nat) (t window : Nat) : List Nat :=
  h.filter (fun a => t ≤ a + window)

/-- The no-sleep condition of one window inside RateLimiter::wait: below
the cap, or the front entry no longer satisfies elapsed < window. -/
def window_admits (h : List Nat) (t window mx : Nat) : Bool :=
  decide ((pruned h t window).length < mx) ||
    (match (pruned h t window).head? with
      | none => true
      | some oldest => decide (oldest + window ≤ t))

/-- RateLimiter::wait admits at instant t (no sleep branch taken). -/
def wait_admits (mx_per_sec mx_per_2min : Nat) (h : List Nat) (t : Nat) :
    Bool :=
  window_admits h t rl_window_short mx_per_sec &&
    window_admits h t rl_window_long mx_per_2min

/-- A trace of admission instants is realisable from history h: instants
are in wall-clock order and each admission passed wait's checks against
the instants recorded before it. -/
def valid_from (mx_per_sec mx_per_2min : Nat) (h : List Nat) :
    List Nat → Bool
  | [] => true
  | t :: rest =>
    h.all (fun a => a ≤ t) && wait_admits mx_per_sec mx_per_2min h t &&
      valid_from mx_per_sec mx_per_2min (h ++ [t]) rest

/-- A realisable trace of acquire returns of the process-wide limiter. -/
def valid_trace (mx_per_sec mx_per_2min : Nat) (ts : List Nat) : Bool :=
  valid_from mx_per_sec mx_per_2min [] ts

/-- Number of admissions falling in the half-open wall-clock window
[w, w + window). -/
def window_count (ts : List Nat) (w window : Nat) : Nat :=
  (ts.filter (fun a => decide (w ≤ a) && decide (a < w + window))).length

/-! ## riot_api.rs — request_with_retry

The loop has MAX_ATTEMPTS = 2, so it is unrolled over the first two
upstream responses; sleeps performed before retries are recorded in
seconds. -/

structure HttpResponse where
  status : Nat
  retryAfter : Option String
deriving DecidableEq

/-- reqwest StatusCode::is_success: 2xx. -/
def is_success_status (code : Nat) : Bool :=
  decide (200 ≤ code) && decide (code ≤ 299)

/-- Rust str::parse::<u64>: optional leading plus sign, then at least one
decimal digit and nothing else, value within the u64 range. -/
def parse_u64 (s : String) : Option Nat :=
  let stripped :=
    match s.data with
    | c :: rest => if c = '+' then rest else s.data
    | [] => []
  if stripped.isEmpty then none
  else if stripped.all Char.isDigit then
    let n := stripped.foldl (fun acc c => acc * 10 + (c.toNat - 48)) 0
    if n < 2 ^ 64 then some n else none
  else none

/-- fn parse_retry_after: the Retry-After header parsed as u64 seconds. -/
def parse_retry_after (header : Option String) : Option Nat :=
  header.bind parse_u64

inductive RequestOutcome where
  | success (attempts : Nat) (sleeps : List Nat)
  | tooManyRequests (sleeps : List Nat)
  | httpStatus (status : Nat) (sleeps : List Nat)
deriving DecidableEq

/-- fn request_with_retry, unrolled over the first and second upstream
responses for the url. -/
def request_with_retry (first second : HttpResponse) : RequestOutcome :=
  if first.status == 429 then
    let retry_after := (parse_retry_after first.retryAfter).getD 10
    if second.status == 429 then
      .tooManyRequests [retry_after]
    else if is_success_status second.status then
      .success 2 [retry_after]
    else
      .httpStatus second.status [retry_after]
  else if is_success_status first.status then
    .success 1 []
  else
    .httpStatus first.status []

/-! ## player_profile.rs — the recency windowing of build_player_profiles

Only the columns that feed the ranked-solo filter, the role filter, the
lane-opponent join multiplicity, the dense descending rank and the
games_used count are modelled; the aggregated means do not affect the
windowing claim. -/

structure ProfileSourceRow where
  match_id : String
  puuid : String
  role : String
  team_id : Int
  queue_id : Int
  game_creation : Int
deriving DecidableEq

def canonical_roles : List String :=
  ["TOP", "JUNGLE", "MIDDLE", "BOTTOM", "UTILITY"]

/-- The base frame: ranked-solo rows in canonical roles. -/
def profile_base (rows : List ProfileSourceRow) : List ProfileSourceRow :=
  rows.filter (fun r => r.queue_id == 420 && decide (r.role ∈ canonical_roles))

/-- The opp_team_id helper column. -/
def opp_team_id (r : ProfileSourceRow) : Int :=
  if r.team_id == 100 then 200 else 100

/-- The left join of the base frame with its opponent projection on
(match_id, role, opp_team_id = team_id): every matching opponent row
duplicates the left row; no match keeps it once (with null opponent
columns, which do not feed the windowing). -/
def with_opponent (rows : List ProfileSourceRow) : List ProfileSourceRow :=
  let base := profile_base rows
  base.flatMap (fun b =>
    let opps := base.filter (fun o =>
      o.match_id == b.match_id && o.role == b.role &&
        o.team_id == opp_team_id b)
    match opps with
    | [] => [b]
    | _ => opps.map (fun _ => b))

/-- The rows of one (puuid, role) partition. -/
def group_of (rows : List ProfileSourceRow) (p role : String) :
    List ProfileSourceRow :=
  rows.filter (fun r => r.puuid == p && r.role == role)

/-- Dense descending rank by game_creation inside a partition: one plus
the number of distinct strictly more recent creation instants. -/
def dense_rank_desc (group : List ProfileSourceRow)
    (r : ProfileSourceRow) : Nat :=
  ((group.map ProfileSourceRow.game_creation).dedup.filter
    (fun c => decide (r.game_creation < c))).length + 1

/-- The frame after filter(recent_rank <= history_size). -/
def windowed (rows : List ProfileSourceRow) (history_size : Nat) :
    List ProfileSourceRow :=
  let joined := with_opponent rows
  joined.filter (fun r =>
    decide (dense_rank_desc (group_of joined r.puuid r.role) r ≤ history_size))

/-- games_used of a (puuid, role) partition: count().over after the rank
filter (the per-group maximum taken in the aggregation equals the group
row count). -/
def games_used (rows : List ProfileSourceRow) (history_size : Nat)
    (p role : String) : Nat :=
  (group_of (windowed rows history_size) p role).length

/-- The (puuid, role) keys of the profile table: groups of the windowed
frame surviving the games_used >= min_matches filter. -/
def profile_groups (rows : List ProfileSourceRow)
    (history_size min_matches : Nat) : List (String × String) :=
  (((windowed rows history_size).map (fun r => (r.puuid, r.role))).dedup).filter
    (fun k => decide (min_matches ≤ games_used rows history_size k.1 k.2))

/-! ## Concrete sample inputs for the theorems -/

/-- A blue-side participant with no challenges record. -/
def participantA : Json := Json.obj
  [("teamId", Json.int 100), ("puuid", Json.str "PA"),
   ("championId", Json.int 1), ("championName", Json.str "Ann"),
   ("teamPosition", Json.str "TOP"), ("win", Json.bool true),
   ("kills", Json.int 3), ("deaths", Json.int 1), ("assists", Json.int 2),
   ("goldEarned", Json.int 10000),
   ("totalDamageDealtToChampions", Json.int 15000),
   ("visionScore", Json.int 20), ("totalMinionsKilled", Json.int 150),
   ("neutralMinionsKilled", Json.int 10)]

/-- A red-side participant whose challenges record carries a
damagePerMinute that differs from damage / (duration / 60). -/
def participantB : Json := Json.obj
  [("teamId", Json.int 200), ("puuid", Json.str "PB"),
   ("championId", Json.int 2), ("championName", Json.str "Bob"),
   ("teamPosition", Json.str "TOP"), ("win", Json.bool false),
   ("kills", Json.int 5), ("deaths", Json.int 2), ("assists", Json.int 4),
   ("goldEarned", Json.int 9000),
   ("totalDamageDealtToChampions", Json.int 15000),
   ("visionScore", Json.int 25), ("totalMinionsKilled", Json.int 140),
   ("neutralMinionsKilled", Json.int 20),
   ("challenges", Json.obj [("damagePerMinute", Json.int 7)])]

/-- A well-formed ranked match document with a 30-minute duration. -/
def sample_doc : Json := Json.obj
  [("metadata", Json.obj
      [("matchId", Json.str "M1"),
       ("participants", Json.arr [Json.str "PA", Json.str "PB"])]),
   ("info", Json.obj
      [("gameCreation", Json.int 1000), ("gameDuration", Json.int 1800),
       ("queueId", Json.int 420), ("gameVersion", Json.str "14.1"),
       ("participants", Json.arr [participantA, participantB]),
       ("teams", Json.arr
          [Json.obj [("teamId", Json.int 100), ("win", Json.bool true)],
           Json.obj [("teamId", Json.int 200), ("win", Json.bool false)]])])]

/-- A one-document match store. -/
def sample_store : List (String × Json) := [("M1", sample_doc)]

/-- A match document whose gameDuration is negative. -/
def neg_duration_doc : Json := Json.obj
  [("metadata", Json.obj
      [("matchId", Json.str "N1"),
       ("participants", Json.arr [Json.str "PA"])]),
   ("info", Json.obj
      [("gameCreation", Json.int 1000), ("gameDuration", Json.int (-5)),
       ("queueId", Json.int 420), ("gameVersion", Json.str "14.1"),
       ("participants", Json.arr [participantA]),
       ("teams", Json.arr
          [Json.obj [("teamId", Json.int 100), ("win", Json.bool true)]])])]

/-- A participant whose kill counter sits at i32::MAX: two of these on
one team overflow the i32 team_kills sum. -/
def overflow_participant : Json := Json.obj
  [("teamId", Json.int 100), ("kills", Json.int 2147483647)]

/-- A bare team record for the overflow participants. -/
def overflow_team : Json := Json.obj [("teamId", Json.int 100)]

/-- An inert client environment: no matches, no tiers, clocks never fire. -/
def trivial_env : CrawlEnv :=
  { matchIdsOf := fun _ => .ok []
    matchJsonOf := fun _ => .error "no such match"
    tierOf := fun _ => .ok none
    saveOk := fun _ => true
    nowMillis := 0
    durationExpired := fun _ => false
    idleExpired := fun _ => false }

/-- metadata.participants of the Explore-expansion scenario. -/
def explore_participants : List Json :=
  [Json.str "P0", Json.str "P1", Json.str "P2", Json.str "P3", Json.str "P4",
   Json.str "P5", Json.str "P6", Json.str "P7", Json.str "P8", Json.str "P9"]

/-- A ranked match between the seed P0 and co-participant P1. -/
def c1_doc : Json := Json.obj
  [("metadata", Json.obj
      [("matchId", Json.str "M1"),
       ("participants", Json.arr [Json.str "P0", Json.str "P1"])]),
   ("info", Json.obj
      [("gameCreation", Json.int 0), ("gameDuration", Json.int 1800),
       ("queueId", Json.int 420), ("gameVersion", Json.str "14.1")])]

/-- A client for which the seed P0 resolves (tier GOLD) but the tier
lookup of the co-participant P1 fails. -/
def c1_env : CrawlEnv :=
  { matchIdsOf := fun p => if p == "P0" then .ok ["M1"] else .ok []
    matchJsonOf := fun m => if m == "M1" then .ok c1_doc else .error "missing"
    tierOf := fun p =>
      if p == "P0" then .ok (some "GOLD")
      else if p == "P1" then .error "boom"
      else .ok none
    saveOk := fun _ => true
    nowMillis := 0
    durationExpired := fun _ => false
    idleExpired := fun _ => false }

/-- Crawl arguments with a rank-allow-list configured. -/
def c1_args : KrakenArgs :=
  { seed_puuid := some "P0", seed_lines := [],
    max_matches_per_player := 100, max_matches_total := none,
    idle_exit_active := false, role_focus := none,
    allow_ranks := some "GOLD" }

/-- Crawl arguments with no filters at all. -/
def plain_args : KrakenArgs :=
  { seed_puuid := some "P0", seed_lines := [],
    max_matches_per_player := 100, max_matches_total := none,
    idle_exit_active := false, role_focus := none, allow_ranks := none }

/-- An admission trace beating the short window cap: one admission at 0,
nineteen at 500, and two at 1000 — the deque front then sits at exactly
one full window of age, so wait admits although the deque is at (and
then above) the cap. -/
def cex_trace : List Nat := 0 :: (List.replicate 19 500 ++ [1000, 1000])

/-- Two rows of one player in one role with identical game_creation. -/
def tie_rows : List ProfileSourceRow :=
  [{ match_id := "M1", puuid := "P", role := "TOP", team_id := 100,
     queue_id := 420, game_creation := 50 },
   { match_id := "M2", puuid := "P", role := "TOP", team_id := 100,
     queue_id := 420, game_creation := 50 }]

deriving instance DecidableEq for Except

/-- The number of entries of vals strictly greater than c (the quantity a
dense descending rank is built from). -/
def countGreater (vals : List Int) (c : Int) : Nat :=
  (vals.filter (fun d => decide (c < d))).length

/-- Two rows of one player in one role with distinct game_creation. -/
def distinct_rows : List ProfileSourceRow :=
  [{ match_id := "M1", puuid := "P", role := "TOP", team_id := 100,
     queue_id := 420, game_creation := 50 },
   { match_id := "M2", puuid := "P", role := "TOP", team_id := 100,
     queue_id := 420, game_creation := 60 }]

/-- The blue team record of sample_doc. -/
def sample_blue_team : Json :=
  Json.obj [("teamId", Json.int 100), ("win", Json.bool true)]

/-- The team row sample_blue_team produces against sample_doc's two
participants. -/
def sample_blue_row : TeamRow :=
  (team_row_of_team "M1" none 1000 1800 420 "14.1"
    [participantA, participantB] sample_blue_team).getD default

/-- Every per-player count recorded in the map is within the cap. -/
def mpp_bounded (m : List (String × Nat)) (mx : Nat) : Prop :=
  ∀ kv ∈ m, kv.2 ≤ mx

/-- The state the inert environment's one-seed run terminates in. -/
def c7_final : CrawlState :=
  { queue := [], seen_puuids := ["P0"], rank_cache := [],
    matches_per_player := [("P0", 0)], seen_match_ids := [],
    downloaded_matches := 0, written_matches := 0 }

/-- Validity of a trace against one window's no-sleep checks. -/
def window_valid_from (window mx : Nat) (h : List Nat) : List Nat → Prop
  | [] => True
  | t :: rest =>
    window_admits h t window mx = true ∧
      window_valid_from window mx (h ++ [t]) rest

/-! ## Shared helper lemmas -/

theorem mem_setInsert_self (x : String) (s : List String) :
    x ∈ setInsert x s := by
  unfold setInsert
  split
  · assumption
  · exact List.mem_cons_self x s

theorem length_filter_le_of_imp {α : Type} (p q : α → Bool) :
    ∀ l : List α, (∀ a ∈ l, p a = true → q a = true) →
      (l.filter p).length ≤ (l.filter q).length := by
  intro l
  induction l with
  | nil => intro _; simp
  | cons x xs ih =>
    intro h
    have hxs := ih (fun a ha => h a (List.mem_cons_of_mem x ha))
    by_cases hp : p x = true
    · have hq := h x (List.mem_cons_self x xs) hp
      simp [List.filter_cons, hp, hq]
      exact hxs
    · have hp' : p x = false := by
        cases hpx : p x with
        | false => rfl
        | true => exact absurd hpx hp
      rcases hq : q x with _ | _
      · simp [List.filter_cons, hp', hq]; exact hxs
      · simp [List.filter_cons, hp', hq]
        exact Nat.le_succ_of_le hxs

theorem length_filter_lt_of_witness {α : Type} (p q : α → Bool) :
    ∀ l : List α, (∀ a ∈ l, p a = true → q a = true) →
      ∀ x ∈ l, q x = true → p x = false →
        (l.filter p).length < (l.filter q).length := by
  intro l
  induction l with
  | nil => intro _ x hx; exact absurd hx (List.not_mem_nil x)
  | cons y ys ih =>
    intro h x hx hqx hpx
    rcases List.mem_cons.mp hx with rfl | hx'
    · simp [List.filter_cons, hpx, hqx]
      exact Nat.lt_succ_of_le
        (length_filter_le_of_imp p q ys
          (fun a ha => h a (List.mem_cons_of_mem x ha)))
    · have hys := ih (fun a ha => h a (List.mem_cons_of_mem y ha)) x hx' hqx hpx
      by_cases hp : p y = true
      · have hq := h y (List.mem_cons_self y ys) hp
        simp [List.filter_cons, hp, hq]
        exact hys
      · have hp' : p y = false := by
          cases hpy : p y with
          | false => rfl
          | true => exact absurd hpy hp
        rcases hq : q y with _ | _
        · simp [List.filter_cons, hp', hq]; exact hys
        · simp [List.filter_cons, hp', hq]
          exact Nat.lt_succ_of_lt hys

/-! ## Claim C3 -/

/-- Claim C3: if the first response is 429 the client sleeps once (for the
parsed Retry-After seconds, 10 when the header is missing or unparsable)
and retries exactly once; a 429 on the retry fails with TooManyRequests, a
success succeeds on attempt 2, any other status fails with it; a non-2xx
non-429 first response fails immediately with no sleep and no retry, and a
2xx first response succeeds on attempt 1. -/
theorem http_429_retry_policy (first second : HttpResponse) :
    (first.status = 429 → second.status = 429 →
      request_with_retry first second =
        .tooManyRequests [(parse_retry_after first.retryAfter).getD 10]) ∧
    (first.status = 429 → second.status ≠ 429 →
      is_success_status second.status = true →
      request_with_retry first second =
        .success 2 [(parse_retry_after first.retryAfter).getD 10]) ∧
    (first.status = 429 → second.status ≠ 429 →
      is_success_status second.status = false →
      request_with_retry first second =
        .httpStatus second.status
          [(parse_retry_after first.retryAfter).getD 10]) ∧
    (first.status ≠ 429 → is_success_status first.status = false →
      request_with_retry first second = .httpStatus first.status []) ∧
    (first.status ≠ 429 → is_success_status first.status = true →
      request_with_retry first second = .success 1 []) ∧
    (∀ n, parse_retry_after first.retryAfter = some n →
      (parse_retry_after first.retryAfter).getD 10 = n) ∧
    (parse_retry_after first.retryAfter = none →
      (parse_retry_after first.retryAfter).getD 10 = 10) := by
  refine ⟨?_, ?_, ?_, ?_, ?_, ?_, ?_⟩
  · intro h1 h2
    simp [request_with_retry, h1, h2]
  · intro h1 h2 h3
    simp [request_with_retry, h1, h2, h3]
  · intro h1 h2 h3
    simp [request_with_retry, h1, h2, h3]
  · intro h1 h2
    simp [request_with_retry, h1, h2]
  · intro h1 h2
    simp [request_with_retry, h1, h2]
  · intro n hn
    simp [hn]
  · intro hn
    simp [hn]

theorem http_429_retry_policy_witness :
    request_with_retry ⟨429, some "3"⟩ ⟨200, none⟩ =
      .success 2 [3] := by
  have h := (http_429_retry_policy ⟨429, some "3"⟩ ⟨200, none⟩).2.1
    rfl (by decide) (by decide)
  rwa [(by decide : (parse_retry_after (some "3")).getD 10 = 3)] at h

/-! ## Claim C4 -/

/-- Claim C4 counterexample: on a concrete non-empty match store the team
table has 37 columns, not the 35 the claim states. -/
theorem team_table_column_count_cex :
    (extract_team_rows sample_store).length = 2 ∧
    ((build_team_dataframe (extract_team_rows sample_store)).map
      Series.name).length = 37 ∧
    ((build_team_dataframe (extract_team_rows sample_store)).map
      Series.name).length ≠ 35 := by
  refine ⟨by decide, ?_, ?_⟩
  · rfl
  · decide

/-- Claim C4 (amended): for every match store the player table has exactly
37 columns and the team table exactly 37 columns (not 35), each in the
order enumerated in the spec (whose team enumeration itself lists these 37
names). -/
theorem extractor_schema_columns (prows : List PlayerRow)
    (trows : List TeamRow) :
    (build_dataframe prows).map Series.name =
      ["match_id", "game_creation", "game_duration", "queue_id",
       "game_version", "team_id", "puuid", "champion_id", "champion_name",
       "role", "win", "kills", "deaths", "assists", "champ_level",
       "gold_earned", "gold_spent", "total_minions_killed",
       "neutral_minions_killed", "total_cs", "damage_to_champions",
       "damage_to_objectives", "damage_to_turrets", "turret_takedowns",
       "inhibitor_takedowns", "vision_score", "wards_placed",
       "wards_killed", "control_wards_placed", "damage_per_min",
       "gold_per_min", "team_damage_percentage", "kill_participation",
       "kda", "vision_score_per_min", "lane_minions_first10",
       "jungle_cs_before10"] ∧
    ((build_dataframe prows).map Series.name).length = 37 ∧
    (build_team_dataframe trows).map Series.name =
      ["match_id", "platform_id", "queue_id", "game_version",
       "game_creation", "game_duration", "team_id", "team_side",
       "team_win", "top_champion_id", "jungle_champion_id",
       "middle_champion_id", "bottom_champion_id", "utility_champion_id",
       "team_kills", "team_deaths", "team_assists", "team_gold_earned",
       "team_damage_to_champions", "team_vision_score", "team_cs_total",
       "team_gold_per_min", "team_damage_per_min",
       "team_vision_score_per_min", "team_cs_per_min",
       "team_towers_destroyed", "team_inhibitors_destroyed",
       "team_dragons", "team_barons", "team_heralds", "team_plates",
       "first_blood", "first_tower", "first_inhibitor", "first_baron",
       "first_dragon", "first_herald"] ∧
    ((build_team_dataframe trows).map Series.name).length = 37 :=
  ⟨rfl, rfl, rfl, rfl⟩

/-! ## Claim C5 -/

/-- Claim C5 counterexample: a player row of a 1800-second game has a null
damage_per_min because its participant has no challenges record, and a
player row whose challenges carry damagePerMinute 7 keeps 7 although
total / (duration / 60) is 500; a team row of a game with duration -5 has
null per-minute columns although the duration is not 0. -/
theorem per_min_nullity_cex :
    (player_row_of_participant "M1" 1000 1800 420 "14.1"
      participantA).game_duration = 1800 ∧
    (player_row_of_participant "M1" 1000 1800 420 "14.1"
      participantA).damage_per_min = none ∧
    (player_row_of_participant "M1" 1000 1800 420 "14.1"
      participantB).damage_per_min = some 7 ∧
    ((player_row_of_participant "M1" 1000 1800 420 "14.1"
      participantB).damage_to_champions : ℚ) / ((1800 : ℚ) / 60) = 500 ∧
    (7 : ℚ) ≠ 500 ∧
    (team_rows_of_doc "N1" neg_duration_doc).map TeamRow.game_duration =
      [-5] ∧
    (team_rows_of_doc "N1" neg_duration_doc).map TeamRow.team_gold_per_min =
      [none] := by
  have hdmg : (player_row_of_participant "M1" 1000 1800 420 "14.1"
      participantB).damage_to_champions = 15000 := by decide
  refine ⟨by decide, by decide, by decide, ?_, by norm_num,
    by decide, ?_⟩
  · rw [hdmg]; norm_num
  · show [per_min 10000 (-5)] = [none]
    norm_num [per_min]

/-- Claim C5 (amended): the team-table per-minute columns are produced by
per_min — null iff the game duration is ≤ 0 (not only = 0), else exactly
total / (duration_secs / 60) — while the player-table per-minute columns
are copied from the participant's challenges record and are null iff the
corresponding challenges field is absent. -/
theorem per_min_column_semantics :
    (∀ total duration_secs : Int,
      (per_min total duration_secs = none ↔ duration_secs ≤ 0) ∧
      (0 < duration_secs →
        per_min total duration_secs =
          some ((total : ℚ) / ((duration_secs : ℚ) / 60)))) ∧
    (∀ (mid : String) (gc gd qid : Int) (gv : String) (participant : Json),
      (player_row_of_participant mid gc gd qid gv
          participant).damage_per_min =
        as_f64 (participant.get "challenges") "damagePerMinute" ∧
      (player_row_of_participant mid gc gd qid gv
          participant).gold_per_min =
        as_f64 (participant.get "challenges") "goldPerMinute" ∧
      (player_row_of_participant mid gc gd qid gv
          participant).vision_score_per_min =
        as_f64 (participant.get "challenges") "visionScorePerMinute") ∧
    (∀ (mid : String) (pid : Option String) (gc gd qid : Int) (gv : String)
        (participants : List Json) (team : Json) (row : TeamRow),
      team_row_of_team mid pid gc gd qid gv participants team = some row →
        row.team_gold_per_min = per_min row.team_gold_earned gd ∧
        row.team_damage_per_min =
          per_min row.team_damage_to_champions gd ∧
        row.team_vision_score_per_min = per_min row.team_vision_score gd ∧
        row.team_cs_per_min = per_min row.team_cs_total gd) := by
  refine ⟨?_, ?_, ?_⟩
  · intro total duration_secs
    constructor
    · unfold per_min
      split
      · simp; assumption
      · simp; omega
    · intro h
      unfold per_min
      split
      · omega
      · rfl
  · intro mid gc gd qid gv participant
    exact ⟨rfl, rfl, rfl⟩
  · intro mid pid gc gd qid gv participants team row h
    unfold team_row_of_team at h
    rcases hm : (team.get "teamId").bind Json.asI64 with _ | tid
    · rw [hm] at h
      exact absurd h (by simp)
    · rw [hm] at h
      simp only [Option.some.injEq] at h
      subst h
      exact ⟨rfl, rfl, rfl, rfl⟩

theorem per_min_column_semantics_witness :
    per_min 100 0 = none ∧
    per_min 15000 1800 = some ((15000 : ℚ) / ((1800 : ℚ) / 60)) ∧
    (player_row_of_participant "M1" 1000 1800 420 "14.1"
        participantB).damage_per_min =
      as_f64 (participantB.get "challenges") "damagePerMinute" := by
  refine ⟨(per_min_column_semantics.1 100 0).1.mpr (by decide),
    (per_min_column_semantics.1 15000 1800).2 (by decide),
    (per_min_column_semantics.2.1 "M1" 1000 1800 420 "14.1" participantB).1⟩

/-! ## Claim C9 -/

theorem wrap32_eq_self {n : Int} (h1 : -(2 ^ 31) ≤ n) (h2 : n < 2 ^ 31) :
    wrap32 n = n := by
  unfold wrap32
  omega

theorem sum_i32_foldl_aux :
    ∀ (xs : List Int) (acc : Int),
      (∀ n, n ≤ xs.length →
        -(2 ^ 31) ≤ acc + (xs.take n).sum ∧ acc + (xs.take n).sum < 2 ^ 31) →
      xs.foldl (fun a x => wrap32 (a + x)) acc = acc + xs.sum := by
  intro xs
  induction xs with
  | nil =>
    intro acc _
    simp
  | cons x rest ih =>
    intro acc hb
    have h1 := hb 1 (by simp)
    simp only [List.take_succ_cons, List.take_zero, List.sum_cons,
      List.sum_nil, add_zero] at h1
    rw [List.foldl_cons]
    rw [wrap32_eq_self h1.1 h1.2]
    rw [ih (acc + x) ?_]
    · rw [List.sum_cons]
      ring
    · intro n hn
      have h2 := hb (n + 1) (by simpa using hn)
      simp only [List.take_succ_cons, List.sum_cons] at h2
      constructor
      · have := h2.1
        omega
      · have := h2.2
        omega

/-- Claim C9 counterexample: two participants of team 100 whose kill
counters are both i32::MAX — the i32 team_kills sum wraps to -2, while
the mathematical sum of their kills is 4294967294. -/
theorem team_i32_sum_overflow_cex :
    (team_row_of_team "M1" none 0 1800 420 "14.1"
      [overflow_participant, overflow_participant] overflow_team).map
        TeamRow.team_kills = some (-2) ∧
    ((([overflow_participant, overflow_participant]).filter
      (participant_on_team 100)).map
        (fun p => as_i32 (p.get "kills"))).sum = 4294967294 ∧
    ((-2 : Int) ≠ 4294967294) := by
  refine ⟨by decide, by decide, by decide⟩

/-- Claim C9 (amended): every emitted team row sums kills, deaths,
assists and (minions + neutral) cs with wrapping i32 addition — the i32
sums of extract_team_parquet, which wrap in release builds (and would
panic in debug) and agree with the mathematical sum whenever every
partial sum fits in i32 — and sums gold earned, damage to champions and
vision score in i64, each over exactly the participants whose teamId
equals the team record's teamId (the value the row's team_id column is
the i16 cast of). -/
theorem team_aggregation_sums (mid : String) (pid : Option String)
    (gc gd qid : Int) (gv : String) (participants : List Json) (team : Json)
    (row : TeamRow)
    (h : team_row_of_team mid pid gc gd qid gv participants team =
      some row) :
    (∃ tid, (team.get "teamId").bind Json.asI64 = some tid ∧
      row.team_id = wrap16 tid ∧
      row.team_kills =
        sum_i32 ((participants.filter (participant_on_team tid)).map
          (fun p => as_i32 (p.get "kills"))) ∧
      row.team_deaths =
        sum_i32 ((participants.filter (participant_on_team tid)).map
          (fun p => as_i32 (p.get "deaths"))) ∧
      row.team_assists =
        sum_i32 ((participants.filter (participant_on_team tid)).map
          (fun p => as_i32 (p.get "assists"))) ∧
      row.team_gold_earned =
        ((participants.filter (participant_on_team tid)).map
          (fun p => as_i32 (p.get "goldEarned"))).sum ∧
      row.team_damage_to_champions =
        ((participants.filter (participant_on_team tid)).map
          (fun p => as_i32 (p.get "totalDamageDealtToChampions"))).sum ∧
      row.team_vision_score =
        ((participants.filter (participant_on_team tid)).map
          (fun p => as_i32 (p.get "visionScore"))).sum ∧
      row.team_cs_total =
        sum_i32 ((participants.filter (participant_on_team tid)).map
          (fun p => wrap32 (as_i32 (p.get "totalMinionsKilled") +
            as_i32 (p.get "neutralMinionsKilled"))))) ∧
    (∀ xs : List Int,
      (∀ n, n ≤ xs.length →
        -(2 ^ 31) ≤ (xs.take n).sum ∧ (xs.take n).sum < 2 ^ 31) →
      sum_i32 xs = xs.sum) := by
  constructor
  · unfold team_row_of_team at h
    rcases hm : (team.get "teamId").bind Json.asI64 with _ | tid
    · rw [hm] at h
      exact absurd h (by simp)
    · rw [hm] at h
      simp only [Option.some.injEq] at h
      subst h
      exact ⟨tid, rfl, rfl, rfl, rfl, rfl, rfl, rfl, rfl, rfl⟩
  · intro xs hb
    unfold sum_i32
    have haux := sum_i32_foldl_aux xs 0 (by simpa using hb)
    simpa using haux

theorem team_aggregation_sums_witness :
    (∃ tid, (sample_blue_team.get "teamId").bind Json.asI64 = some tid ∧
      sample_blue_row.team_id = wrap16 tid ∧
      sample_blue_row.team_kills =
        sum_i32 ((([participantA, participantB]).filter
          (participant_on_team tid)).map
            (fun p => as_i32 (p.get "kills"))) ∧
      sample_blue_row.team_deaths =
        sum_i32 ((([participantA, participantB]).filter
          (participant_on_team tid)).map
            (fun p => as_i32 (p.get "deaths"))) ∧
      sample_blue_row.team_assists =
        sum_i32 ((([participantA, participantB]).filter
          (participant_on_team tid)).map
            (fun p => as_i32 (p.get "assists"))) ∧
      sample_blue_row.team_gold_earned =
        ((([participantA, participantB]).filter
          (participant_on_team tid)).map
            (fun p => as_i32 (p.get "goldEarned"))).sum ∧
      sample_blue_row.team_damage_to_champions =
        ((([participantA, participantB]).filter
          (participant_on_team tid)).map
            (fun p => as_i32 (p.get "totalDamageDealtToChampions"))).sum ∧
      sample_blue_row.team_vision_score =
        ((([participantA, participantB]).filter
          (participant_on_team tid)).map
            (fun p => as_i32 (p.get "visionScore"))).sum ∧
      sample_blue_row.team_cs_total =
        sum_i32 ((([participantA, participantB]).filter
          (participant_on_team tid)).map
            (fun p => wrap32 (as_i32 (p.get "totalMinionsKilled") +
              as_i32 (p.get "neutralMinionsKilled"))))) ∧
    sum_i32 [1, 2] = ([1, 2] : List Int).sum :=
  ⟨(team_aggregation_sums "M1" none 1000 1800 420 "14.1"
      [participantA, participantB] sample_blue_team sample_blue_row
      rfl).1,
   (team_aggregation_sums "M1" none 1000 1800 420 "14.1"
      [participantA, participantB] sample_blue_team sample_blue_row
      rfl).2 [1, 2] (by decide)⟩

/-! ## Claim C10 -/

/-- Claim C10: a --mode value other than explore, focus, seed-only
(compared after lowercasing) parses to Explore without error, and the
whole crawl behaves exactly as with --mode explore. -/
theorem unknown_mode_defaults_to_explore :
    (∀ s : String, to_lowercase s ≠ "explore" → to_lowercase s ≠ "focus" →
      to_lowercase s ≠ "seed-only" → parse_mode s = .Explore) ∧
    (∀ (env : CrawlEnv) (args : KrakenArgs) (fuel : Nat) (s : String),
      parse_mode s = .Explore →
      kraken_absorb_run_state env args s fuel =
        kraken_absorb_run_state env args "explore" fuel) := by
  constructor
  · intro s h1 h2 h3
    unfold parse_mode
    simp [h1, h2, h3]
  · intro env args fuel s h
    unfold kraken_absorb_run_state
    have hx : parse_mode "explore" = KrakenMode.Explore := by decide
    rw [h, hx]

theorem unknown_mode_defaults_to_explore_witness :
    parse_mode "Bogus" = KrakenMode.Explore ∧
    kraken_absorb_run_state trivial_env plain_args "Bogus" 1 =
      kraken_absorb_run_state trivial_env plain_args "explore" 1 :=
  ⟨unknown_mode_defaults_to_explore.1 "Bogus" (by decide) (by decide)
      (by decide),
    unknown_mode_defaults_to_explore.2 trivial_env plain_args 1 "Bogus"
      (unknown_mode_defaults_to_explore.1 "Bogus" (by decide) (by decide)
        (by decide))⟩

/-! ## Claim C6 -/

theorem enqueue_tail_spec (mode : KrakenMode) (slots : Option Nat)
    (count : Nat) (p : String) (seen queue : List String)
    (cache : List (String × Option String)) :
    (enqueue_tail mode slots count p seen queue cache).enqueued = true →
    p ∈ (enqueue_tail mode slots count p seen queue cache).seen_puuids ∧
    (enqueue_tail mode slots count p seen queue cache).queue =
      (if count < 10 then p :: queue else queue ++ [p]) := by
  intro h
  unfold enqueue_tail at h ⊢
  cases hb : focus_blocked mode slots with
  | true => rw [hb] at h; exact absurd h (by simp)
  | false => exact ⟨mem_setInsert_self p seen, rfl⟩

theorem rank_filter_tail_spec (allowed : List String) (tier : Option String)
    (mode : KrakenMode) (slots : Option Nat) (count : Nat) (p : String)
    (seen queue : List String) (cache : List (String × Option String)) :
    (rank_filter_tail allowed tier mode slots count p seen queue
      cache).enqueued = true →
    p ∈ (rank_filter_tail allowed tier mode slots count p seen queue
      cache).seen_puuids ∧
    (rank_filter_tail allowed tier mode slots count p seen queue
      cache).queue = (if count < 10 then p :: queue else queue ++ [p]) := by
  intro h
  rcases tier with _ | tv
  · exact enqueue_tail_spec _ _ _ _ _ _ _ h
  · by_cases hin : tv ∉ allowed
    · have hrw : rank_filter_tail allowed (some tv) mode slots count p seen
          queue cache =
          ⟨false, setInsert p seen, queue, cache⟩ := by
        simp only [rank_filter_tail]
        rw [if_pos hin]
      rw [hrw] at h
      exact absurd h (by simp)
    · have hrw : rank_filter_tail allowed (some tv) mode slots count p seen
          queue cache = enqueue_tail mode slots count p seen queue cache := by
        simp only [rank_filter_tail]
        rw [if_neg hin]
      rw [hrw] at h ⊢
      exact enqueue_tail_spec _ _ _ _ _ _ _ h

/-- Claim C6: whenever maybe_enqueue admits a candidate it marks it seen
and places it at the front of the frontier exactly when its downloaded
count is under 10 (else at the back); in Explore mode, absorbing a match
whose participants are P0..P9 with P0 already seen and all counts 0
leaves the frontier [P9,...,P1] and a seen set of 10 players. -/
theorem frontier_priority_placement :
    (∀ (env : CrawlEnv) (allowed : Option (List String))
        (mode : KrakenMode) (slots : Option Nat) (count : Nat) (p : String)
        (seen queue : List String) (cache : List (String × Option String))
        (r : EnqueueResult),
      kraken_maybe_enqueue_player env allowed mode slots count p seen queue
        cache = .ok r →
      r.enqueued = true →
      p ∈ r.seen_puuids ∧
      r.queue = (if count < 10 then p :: queue else queue ++ [p])) ∧
    (absorb_participants trivial_env none .Explore 10 []
        explore_participants ["P0"] [] [] 0 =
      .ok (["P9", "P8", "P7", "P6", "P5", "P4", "P3", "P2", "P1", "P0"],
        ["P9", "P8", "P7", "P6", "P5", "P4", "P3", "P2", "P1"], [], 9)) ∧
    (["P9", "P8", "P7", "P6", "P5", "P4", "P3", "P2", "P1",
      "P0"] : List String).length = 10 := by
  refine ⟨?_, by rfl, by rfl⟩
  intro env allowed mode slots count p seen queue cache r h henq
  unfold kraken_maybe_enqueue_player at h
  split at h
  · cases h
    exact absurd henq (by simp)
  · split at h
    · cases h
      exact enqueue_tail_spec _ _ _ _ _ _ _ henq
    · split at h
      · cases h
        exact rank_filter_tail_spec _ _ _ _ _ _ _ _ _ henq
      · split at h
        · exact absurd h (by simp)
        · cases h
          exact rank_filter_tail_spec _ _ _ _ _ _ _ _ _ henq

theorem frontier_priority_placement_witness :
    "X" ∈ (EnqueueResult.mk true ["X"] ["X"] []).seen_puuids ∧
    (EnqueueResult.mk true ["X"] ["X"] []).queue =
      (if 0 < 10 then "X" :: ([] : List String) else [] ++ ["X"]) :=
  frontier_priority_placement.1 trivial_env none .Explore none 0 "X" [] []
    [] (EnqueueResult.mk true ["X"] ["X"] []) rfl rfl

/-! ## Claim C7 -/

theorem mapInsert_bounded {m : List (String × Nat)} {mx v : Nat}
    (k : String) (hm : mpp_bounded m mx) (hv : v ≤ mx) :
    mpp_bounded (mapInsert k v m) mx := by
  intro kv hkv
  unfold mapInsert at hkv
  rcases List.mem_cons.mp hkv with rfl | hmem
  · exact hv
  · exact hm kv (List.mem_of_mem_filter hmem)

theorem process_match_ids_bound (env : CrawlEnv) (args : KrakenArgs)
    (allowed_ranks role_focus : Option (List String)) (mode : KrakenMode)
    (mnf : Nat) :
    ∀ (ids : List String) (st : CrawlState) (d : Nat) (st' : CrawlState)
      (d' : Nat),
      process_match_ids env args allowed_ranks role_focus mode mnf ids st d =
        .ok (st', d') →
      d ≤ args.max_matches_per_player →
      d' ≤ args.max_matches_per_player ∧
        st'.matches_per_player = st.matches_per_player := by
  intro ids
  induction ids with
  | nil =>
    intro st d st' d' h hd
    simp only [process_match_ids, Except.ok.injEq, Prod.mk.injEq] at h
    obtain ⟨rfl, rfl⟩ := h
    exact ⟨hd, rfl⟩
  | cons mid rest ih =>
    intro st d st' d' h hd
    unfold process_match_ids at h
    split at h
    · simp only [Except.ok.injEq, Prod.mk.injEq] at h
      obtain ⟨rfl, rfl⟩ := h
      exact ⟨hd, rfl⟩
    · split at h
      · simp only [Except.ok.injEq, Prod.mk.injEq] at h
        obtain ⟨rfl, rfl⟩ := h
        exact ⟨hd, rfl⟩
      case isFalse hcap =>
        split at h
        · exact ih _ _ _ _ h hd
        · dsimp only at h
          split at h
          · obtain ⟨h1, h2⟩ := ih _ _ _ _ h hd
            exact ⟨h1, h2⟩
          · split at h
            · obtain ⟨h1, h2⟩ := ih _ _ _ _ h hd
              exact ⟨h1, h2⟩
            · split at h
              · obtain ⟨h1, h2⟩ := ih _ _ _ _ h hd
                exact ⟨h1, h2⟩
              · split at h
                · exact absurd h (by simp)
                · split at h
                  · split at h
                    · obtain ⟨h1, h2⟩ := ih _ _ _ _ h (by omega)
                      exact ⟨h1, h2⟩
                    · obtain ⟨h1, h2⟩ := ih _ _ _ _ h hd
                      exact ⟨h1, h2⟩
                  · obtain ⟨h1, h2⟩ := ih _ _ _ _ h (by omega)
                    exact ⟨h1, h2⟩

theorem crawl_loop_bound (env : CrawlEnv) (args : KrakenArgs)
    (allowed_ranks role_focus : Option (List String)) (mode : KrakenMode)
    (mnf : Nat) :
    ∀ (fuel iter : Nat) (st st' : CrawlState),
      crawl_loop env args allowed_ranks role_focus mode mnf fuel iter st =
        .ok st' →
      mpp_bounded st.matches_per_player args.max_matches_per_player →
      mpp_bounded st'.matches_per_player args.max_matches_per_player := by
  intro fuel
  induction fuel with
  | zero =>
    intro iter st st' h hb
    simp only [crawl_loop, Except.ok.injEq] at h
    subst h
    exact hb
  | succ fuel ih =>
    intro iter st st' h hb
    unfold crawl_loop at h
    split at h
    · simp only [Except.ok.injEq] at h
      subst h
      exact hb
    · split at h
      · simp only [Except.ok.injEq] at h
        subst h
        exact hb
      · split at h
        · simp only [Except.ok.injEq] at h
          subst h
          exact hb
        · split at h
          · simp only [Except.ok.injEq] at h
            subst h
            exact hb
          · split at h
            · simp only [Except.ok.injEq] at h
              subst h
              exact hb
            case h_2 puuid queue_rest heq =>
              dsimp only at h
              split at h
              · exact ih _ _ _ h hb
              case isFalse hcap =>
                split at h
                · exact ih _ _ _ h hb
                case h_2 match_ids hm =>
                  split at h
                  · exact absurd h (by simp)
                  case h_2 r hpr =>
                    obtain ⟨hr1, hr2⟩ := process_match_ids_bound env args
                      allowed_ranks role_focus mode mnf match_ids _ _ r.1
                      r.2 hpr (by omega)
                    refine ih _ _ _ h ?_
                    refine mapInsert_bounded puuid ?_ hr1
                    rw [hr2]
                    exact hb

/-- Claim C7: at any termination of a crawl run, every recorded per-player
downloaded-match count is at most max_matches_per_player. -/
theorem per_player_cap (env : CrawlEnv) (args : KrakenArgs)
    (mode_arg : String) (fuel : Nat) (st : CrawlState)
    (hrun : kraken_absorb_run_state env args mode_arg fuel = .ok st) :
    ∀ kv ∈ st.matches_per_player, kv.2 ≤ args.max_matches_per_player := by
  unfold kraken_absorb_run_state kraken_absorb_with_mode at hrun
  split at hrun
  · exact absurd hrun (by simp)
  · dsimp only at hrun
    split at hrun
    · exact absurd hrun (by simp)
    case h_2 r hr =>
      split at hrun
      · exact absurd hrun (by simp)
      · exact crawl_loop_bound env args _ _ _ _ fuel 0 _ st hrun
          (by intro kv hkv; exact absurd hkv (List.not_mem_nil kv))

theorem per_player_cap_witness :
    (("P0", 0) : String × Nat).2 ≤ plain_args.max_matches_per_player :=
  per_player_cap trivial_env plain_args "explore" 2 c7_final rfl
    ("P0", 0) (by decide)

/-! ## Claim C1 -/

theorem maybe_enqueue_error (env : CrawlEnv)
    (allowed_ranks : Option (List String)) (mode : KrakenMode)
    (slots : Option Nat) (count : Nat) (p : String)
    (seen queue : List String) (cache : List (String × Option String))
    (e : CrawlError)
    (h : kraken_maybe_enqueue_player env allowed_ranks mode slots count p
      seen queue cache = .error e) :
    ∃ q m, e = .tierLookup q m ∧ env.tierOf q = .error m := by
  unfold kraken_maybe_enqueue_player at h
  split at h
  · exact absurd h (by simp)
  · split at h
    · exact absurd h (by simp)
    · split at h
      · exact absurd h (by simp)
      · split at h
        case h_1 m ht =>
          simp only [Except.error.injEq] at h
          exact ⟨p, m, h.symm, ht⟩
        · exact absurd h (by simp)

theorem absorb_participants_error (env : CrawlEnv)
    (allowed_ranks : Option (List String)) (mode : KrakenMode) (mnf : Nat)
    (mpp : List (String × Nat)) :
    ∀ (parts : List Json) (seen queue : List String)
      (cache : List (String × Option String)) (added : Nat)
      (e : CrawlError),
      absorb_participants env allowed_ranks mode mnf mpp parts seen queue
        cache added = .error e →
      ∃ q m, e = .tierLookup q m ∧ env.tierOf q = .error m := by
  intro parts
  induction parts with
  | nil =>
    intro seen queue cache added e h
    exact absurd h (by simp [absorb_participants])
  | cons participant rest ih =>
    intro seen queue cache added e h
    unfold absorb_participants at h
    split at h
    · exact ih _ _ _ _ _ h
    · split at h
      · exact ih _ _ _ _ _ h
      · split at h
        · exact ih _ _ _ _ _ h
        · dsimp only at h
          split at h
          case h_1 e0 hme =>
            simp only [Except.error.injEq] at h
            subst h
            exact maybe_enqueue_error _ _ _ _ _ _ _ _ _ _ hme
          · exact ih _ _ _ _ _ h

theorem process_match_ids_error (env : CrawlEnv) (args : KrakenArgs)
    (allowed_ranks role_focus : Option (List String)) (mode : KrakenMode)
    (mnf : Nat) :
    ∀ (ids : List String) (st : CrawlState) (d : Nat) (e : CrawlError),
      process_match_ids env args allowed_ranks role_focus mode mnf ids st
        d = .error e →
      ∃ q m, e = .tierLookup q m ∧ env.tierOf q = .error m := by
  intro ids
  induction ids with
  | nil =>
    intro st d e h
    exact absurd h (by simp [process_match_ids])
  | cons mid rest ih =>
    intro st d e h
    unfold process_match_ids at h
    split at h
    · exact absurd h (by simp)
    · split at h
      · exact absurd h (by simp)
      · split at h
        · exact ih _ _ _ h
        · dsimp only at h
          split at h
          · exact ih _ _ _ h
          · split at h
            · exact ih _ _ _ h
            · split at h
              · exact ih _ _ _ h
              · split at h
                case h_1 e0 hab =>
                  simp only [Except.error.injEq] at h
                  subst h
                  exact absorb_participants_error _ _ _ _ _ _ _ _ _ _ _ hab
                · split at h
                  · split at h
                    · exact ih _ _ _ h
                    · exact ih _ _ _ h
                  · exact ih _ _ _ h

theorem crawl_loop_error (env : CrawlEnv) (args : KrakenArgs)
    (allowed_ranks role_focus : Option (List String)) (mode : KrakenMode)
    (mnf : Nat) :
    ∀ (fuel iter : Nat) (st : CrawlState) (e : CrawlError),
      crawl_loop env args allowed_ranks role_focus mode mnf fuel iter st =
        .error e →
      ∃ q m, e = .tierLookup q m ∧ env.tierOf q = .error m := by
  intro fuel
  induction fuel with
  | zero =>
    intro iter st e h
    exact absurd h (by simp [crawl_loop])
  | succ fuel ih =>
    intro iter st e h
    unfold crawl_loop at h
    split at h
    · exact absurd h (by simp)
    · split at h
      · exact absurd h (by simp)
      · split at h
        · exact absurd h (by simp)
        · split at h
          · exact absurd h (by simp)
          · split at h
            · exact absurd h (by simp)
            · dsimp only at h
              split at h
              · exact ih _ _ _ h
              · split at h
                · exact ih _ _ _ h
                · split at h
                  case h_1 e0 hpe =>
                    simp only [Except.error.injEq] at h
                    subst h
                    exact process_match_ids_error _ _ _ _ _ _ _ _ _ _ hpe
                  · exact ih _ _ _ h

theorem enqueue_seeds_error (env : CrawlEnv)
    (allowed_ranks : Option (List String)) (mode : KrakenMode)
    (mpp : List (String × Nat)) :
    ∀ (seeds seen queue : List String)
      (cache : List (String × Option String)) (e : CrawlError),
      enqueue_seeds env allowed_ranks mode mpp seeds seen queue cache =
        .error e →
      ∃ q m, e = .tierLookup q m ∧ env.tierOf q = .error m := by
  intro seeds
  induction seeds with
  | nil =>
    intro seen queue cache e h
    exact absurd h (by simp [enqueue_seeds])
  | cons seed rest ih =>
    intro seen queue cache e h
    unfold enqueue_seeds at h
    dsimp only at h
    split at h
    case h_1 e0 hme =>
      simp only [Except.error.injEq] at h
      subst h
      exact maybe_enqueue_error _ _ _ _ _ _ _ _ _ _ hme
    · exact ih _ _ _ _ h

theorem kraken_run_error (env : CrawlEnv) (args : KrakenArgs)
    (mode_arg : String) (fuel : Nat) (e : CrawlError)
    (h : kraken_absorb_run_state env args mode_arg fuel = .error e) :
    e = .noSeedProvided ∨ e = .noSeedsEnqueued ∨
      ∃ q m, e = .tierLookup q m ∧ env.tierOf q = .error m := by
  unfold kraken_absorb_run_state kraken_absorb_with_mode at h
  split at h
  · simp only [Except.error.injEq] at h
    exact Or.inl h.symm
  · dsimp only at h
    split at h
    case h_1 e0 hse =>
      simp only [Except.error.injEq] at h
      subst h
      exact Or.inr (Or.inr (enqueue_seeds_error _ _ _ _ _ _ _ _ _ hse))
    case h_2 r hr =>
      split at h
      · simp only [Except.error.injEq] at h
        exact Or.inr (Or.inl h.symm)
      · exact Or.inr (Or.inr (crawl_loop_error _ _ _ _ _ _ _ _ _ _ h))

/-- Claim C1 counterexample: with a rank-allow-list configured and a
client whose tier lookup fails for co-participant P1, the crawl run as a
whole aborts with that error instead of skipping P1 and continuing. -/
theorem tier_lookup_error_aborts_cex :
    kraken_absorb_run_state c1_env c1_args "explore" 2 =
      .error (.tierLookup "P1" "boom") := by
  rfl

/-- Claim C1 (amended): inside the crawl loop, match-id listing errors,
match fetch errors and save errors are recovered (logged and skipped, the
loop continues), but an error of the ranked-tier lookup performed inside
maybe_enqueue propagates and aborts the crawl run; so whenever the tier
oracle never fails, a crawl run can only end in success or in one of the
two seed errors, whatever errors the other client calls produce. -/
theorem crawl_error_sources (env : CrawlEnv) (args : KrakenArgs)
    (mode_arg : String) (fuel : Nat)
    (htier : ∀ p m, env.tierOf p ≠ .error m) :
    (∃ st, kraken_absorb_run_state env args mode_arg fuel = .ok st) ∨
    kraken_absorb_run_state env args mode_arg fuel =
      .error .noSeedProvided ∨
    kraken_absorb_run_state env args mode_arg fuel =
      .error .noSeedsEnqueued := by
  cases hres : kraken_absorb_run_state env args mode_arg fuel with
  | ok st => exact Or.inl ⟨st, rfl⟩
  | error e =>
    rcases kraken_run_error env args mode_arg fuel e hres with
      rfl | rfl | ⟨q, m, rfl, hq⟩
    · exact Or.inr (Or.inl rfl)
    · exact Or.inr (Or.inr rfl)
    · exact absurd hq (htier q m)

theorem crawl_error_sources_witness :
    (∃ st, kraken_absorb_run_state trivial_env plain_args "explore" 2 =
      .ok st) ∨
    kraken_absorb_run_state trivial_env plain_args "explore" 2 =
      .error .noSeedProvided ∨
    kraken_absorb_run_state trivial_env plain_args "explore" 2 =
      .error .noSeedsEnqueued :=
  crawl_error_sources trivial_env plain_args "explore" 2
    (fun p m => by simp [trivial_env])

/-! ## Claim C2 -/

theorem head?_mem_list {l : List Nat} {f : Nat} (h : l.head? = some f) :
    f ∈ l := by
  cases l with
  | nil => simp at h
  | cons a as =>
    simp at h
    subst h
    exact List.mem_cons_self a as

theorem window_admits_cases {h : List Nat} {t window mx : Nat}
    (ha : window_admits h t window mx = true) :
    (pruned h t window).length < mx ∨ pruned h t window = [] ∨
    ∃ f, (pruned h t window).head? = some f ∧ f + window = t := by
  unfold window_admits at ha
  rcases hh : (pruned h t window).head? with _ | f
  · refine Or.inr (Or.inl ?_)
    cases hp : pruned h t window with
    | nil => rfl
    | cons a as => rw [hp] at hh; simp at hh
  · rw [hh] at ha
    by_cases hlen : (pruned h t window).length < mx
    · exact Or.inl hlen
    · refine Or.inr (Or.inr ⟨f, rfl, ?_⟩)
      have hle : f + window ≤ t := by
        rcases Bool.or_eq_true_iff.mp ha with h1 | h2
        · exact absurd (of_decide_eq_true h1) hlen
        · exact of_decide_eq_true h2
      have hf : f ∈ pruned h t window := head?_mem_list hh
      have hge : t ≤ f + window := by
        have := (List.mem_filter.mp hf).2
        exact of_decide_eq_true this
      omega

theorem rl_step (window mx : Nat) (h : List Nat) (t : Nat)
    (hmx : 1 ≤ mx)
    (hinv1 : ∀ w, window_count h w window ≤ mx)
    (hinv2 : ∀ u, (∀ a ∈ h, a < u) → (pruned h u window).length ≤ mx)
    (hord : ∀ a ∈ h, a < t)
    (ha : window_admits h t window mx = true) :
    (∀ w, window_count (h ++ [t]) w window ≤ mx) ∧
    (∀ u, (∀ a ∈ h ++ [t], a < u) →
      (pruned (h ++ [t]) u window).length ≤ mx) := by
  have hprune_le : (pruned h t window).length ≤ mx := hinv2 t hord
  constructor
  · intro w
    unfold window_count at hinv1 ⊢
    rw [List.filter_append, List.length_append]
    by_cases hwt : w ≤ t ∧ t < w + window
    · have hsingle : List.filter
          (fun a => decide (w ≤ a) && decide (a < w + window)) [t] =
          [t] := by
        simp [hwt.1, hwt.2]
      have himp : ∀ a ∈ h,
          (decide (w ≤ a) && decide (a < w + window)) = true →
          decide (t ≤ a + window) = true := by
        intro a _ hpa
        simp only [Bool.and_eq_true, decide_eq_true_eq] at hpa
        simp only [decide_eq_true_eq]
        omega
      have hlt : (h.filter
          (fun a => decide (w ≤ a) && decide (a < w + window))).length <
            mx := by
        rcases window_admits_cases ha with hlen | hnil | ⟨f, hf, hfe⟩
        · calc (h.filter _).length
              ≤ (pruned h t window).length :=
                length_filter_le_of_imp _ _ h himp
            _ < mx := hlen
        · have hle0 := length_filter_le_of_imp
            (fun a => decide (w ≤ a) && decide (a < w + window))
            (fun a => decide (t ≤ a + window)) h himp
          unfold pruned at hnil
          rw [hnil] at hle0
          simp only [List.length_nil] at hle0
          omega
        · have hfh : f ∈ h :=
            List.mem_of_mem_filter (head?_mem_list hf)
          have hqf : decide (t ≤ f + window) = true := by
            simp only [decide_eq_true_eq]
            omega
          have hpf : (decide (w ≤ f) && decide (f < w + window)) =
              false := by
            have hfw : f < w := by omega
            have : decide (w ≤ f) = false := by
              simp only [decide_eq_false_iff_not, not_le]
              omega
            rw [this, Bool.false_and]
          calc (h.filter _).length
              < (pruned h t window).length :=
                length_filter_lt_of_witness _ _ h himp f hfh hqf hpf
            _ ≤ mx := hprune_le
      rw [hsingle]
      simp only [List.length_cons, List.length_nil]
      omega
    · have hsingle : List.filter
          (fun a => decide (w ≤ a) && decide (a < w + window)) [t] =
          [] := by
        by_cases h1 : w ≤ t
        · have h2 : ¬ t < w + window := fun h2 => hwt ⟨h1, h2⟩
          simp [h1, h2]
        · simp [h1]
      rw [hsingle]
      simp only [List.length_nil, Nat.add_zero]
      exact hinv1 w
  · intro u hu
    have hut : t < u := hu t (by simp)
    have huh : ∀ a ∈ h, a < u := fun a ha => hu a (by simp [ha])
    have himp2 : ∀ a ∈ h, decide (u ≤ a + window) = true →
        decide (t ≤ a + window) = true := by
      intro a _ hq
      simp only [decide_eq_true_eq] at hq ⊢
      omega
    unfold pruned at hprune_le ⊢
    rw [List.filter_append, List.length_append]
    by_cases hqt : u ≤ t + window
    · have hsingle : List.filter (fun a => decide (u ≤ a + window)) [t] =
          [t] := by
        simp [hqt]
      have hlt : (h.filter (fun a => decide (u ≤ a + window))).length <
          mx := by
        rcases window_admits_cases ha with hlen | hnil | ⟨f, hf, hfe⟩
        · calc (h.filter _).length
              ≤ (pruned h t window).length :=
                length_filter_le_of_imp _ _ h himp2
            _ < mx := hlen
        · have hle0 := length_filter_le_of_imp
            (fun a => decide (u ≤ a + window))
            (fun a => decide (t ≤ a + window)) h himp2
          unfold pruned at hnil
          rw [hnil] at hle0
          simp only [List.length_nil] at hle0
          omega
        · have hfh : f ∈ h :=
            List.mem_of_mem_filter (head?_mem_list hf)
          have hqf : decide (t ≤ f + window) = true := by
            simp only [decide_eq_true_eq]
            omega
          have hpf : decide (u ≤ f + window) = false := by
            simp only [decide_eq_false_iff_not, not_le]
            omega
          calc (h.filter _).length
              < (pruned h t window).length :=
                length_filter_lt_of_witness _ _ h himp2 f hfh hqf hpf
            _ ≤ mx := hprune_le
      rw [hsingle]
      simp only [List.length_cons, List.length_nil]
      omega
    · have hsingle : List.filter (fun a => decide (u ≤ a + window)) [t] =
          [] := by
        simp only [List.filter_cons, List.filter_nil]
        have : decide (u ≤ t + window) = false := by
          simp only [decide_eq_false_iff_not]
          exact hqt
        rw [this]
        rfl
      rw [hsingle]
      simp only [List.length_nil, Nat.add_zero]
      calc (h.filter (fun a => decide (u ≤ a + window))).length
          ≤ (h.filter (fun a => decide (t ≤ a + window))).length :=
            length_filter_le_of_imp _ _ h himp2
        _ ≤ mx := hprune_le

theorem window_bound_aux (window mx : Nat) (hmx : 1 ≤ mx) :
    ∀ (ts h : List Nat),
      window_valid_from window mx h ts →
      (∀ a ∈ h, ∀ b ∈ ts, a < b) →
      ts.Pairwise (· < ·) →
      (∀ w, window_count h w window ≤ mx) →
      (∀ u, (∀ a ∈ h, a < u) → (pruned h u window).length ≤ mx) →
      ∀ w, window_count (h ++ ts) w window ≤ mx := by
  intro ts
  induction ts with
  | nil =>
    intro h _ _ _ hinv1 _ w
    simpa using hinv1 w
  | cons t rest ih =>
    intro h hv hord hpw hinv1 hinv2 w
    obtain ⟨hadm, hv'⟩ := hv
    have hordt : ∀ a ∈ h, a < t := fun a ha => hord a ha t (by simp)
    obtain ⟨hinv1', hinv2'⟩ := rl_step window mx h t hmx hinv1 hinv2
      hordt hadm
    obtain ⟨hth, hpw'⟩ := List.pairwise_cons.mp hpw
    have hassoc : h ++ t :: rest = (h ++ [t]) ++ rest := by simp
    rw [hassoc]
    refine ih (h ++ [t]) hv' ?_ hpw' hinv1' hinv2' w
    intro a ha b hb
    rcases List.mem_append.mp ha with hah | hat
    · exact hord a hah b (by simp [hb])
    · simp at hat
      subst hat
      exact hth b hb

theorem valid_from_windows (mx1 mx2 : Nat) :
    ∀ (ts h : List Nat), valid_from mx1 mx2 h ts = true →
      window_valid_from rl_window_short mx1 h ts ∧
      window_valid_from rl_window_long mx2 h ts ∧
      (∀ a ∈ h, ∀ b ∈ ts, a ≤ b) := by
  intro ts
  induction ts with
  | nil =>
    intro h _
    exact ⟨trivial, trivial, by simp⟩
  | cons t rest ih =>
    intro h hv
    unfold valid_from at hv
    simp only [Bool.and_eq_true] at hv
    obtain ⟨⟨hall, hwait⟩, hv'⟩ := hv
    unfold wait_admits at hwait
    simp only [Bool.and_eq_true] at hwait
    obtain ⟨ih1, ih2, ih3⟩ := ih (h ++ [t]) hv'
    refine ⟨⟨hwait.1, ih1⟩, ⟨hwait.2, ih2⟩, ?_⟩
    intro a ha b hb
    rcases List.mem_cons.mp hb with rfl | hb'
    · exact of_decide_eq_true (List.all_eq_true.mp hall a ha)
    · exact ih3 a (by simp [ha]) b hb'

/-- Claim C2 counterexample: a realisable admission trace (one acquire at
instant 0 ms, nineteen at 500 ms, two at 1000 ms, with the default
short_limit 20 and long_limit 80) puts 21 acquire returns inside the
1-second wall-clock window [1 ms, 1001 ms): the deque front at instant
1000 is exactly one full window old, so wait admits with the deque at and
then above its cap. -/
theorem rate_limiter_window_bound_cex :
    valid_trace 20 80 cex_trace = true ∧
    window_count cex_trace 1 rl_window_short = 21 ∧ 20 < 21 := by
  refine ⟨by decide, by decide, by decide⟩

/-- Claim C2 (amended): for a realisable admission trace whose instants
are pairwise distinct (strictly increasing), and positive limits, every
half-open wall-clock window of one second holds at most short_limit
acquire returns and every window of 120 seconds at most long_limit; with
coincident instants the exact-boundary admission of the counterexample can
exceed the caps. -/
theorem rate_limiter_window_bound (mx1 mx2 : Nat) (ts : List Nat)
    (hv : valid_trace mx1 mx2 ts = true) (hs : ts.Pairwise (· < ·))
    (h1 : 1 ≤ mx1) (h2 : 1 ≤ mx2) (w : Nat) :
    window_count ts w rl_window_short ≤ mx1 ∧
    window_count ts w rl_window_long ≤ mx2 := by
  obtain ⟨hw1, hw2, _⟩ := valid_from_windows mx1 mx2 ts [] hv
  constructor
  · have := window_bound_aux rl_window_short mx1 h1 ts [] hw1 (by simp)
      hs (by intro w'; simp [window_count]) (by intro u _; simp [pruned]) w
    simpa using this
  · have := window_bound_aux rl_window_long mx2 h2 ts [] hw2 (by simp)
      hs (by intro w'; simp [window_count]) (by intro u _; simp [pruned]) w
    simpa using this

theorem rate_limiter_window_bound_witness :
    window_count [0, 500] 0 rl_window_short ≤ 20 ∧
    window_count [0, 500] 0 rl_window_long ≤ 80 :=
  rate_limiter_window_bound 20 80 [0, 500] (by decide) (by decide)
    (by decide) (by decide) 0

/-! ## Claim C8 -/

theorem exists_max_int :
    ∀ (l : List Int), l ≠ [] → ∃ M ∈ l, ∀ x ∈ l, x ≤ M := by
  intro l
  induction l with
  | nil => intro h; exact absurd rfl h
  | cons a as ih =>
    intro _
    rcases as with _ | ⟨b, bs⟩
    · exact ⟨a, by simp, by simp⟩
    · obtain ⟨M, hM, hbound⟩ := ih (by simp)
      rcases le_total a M with ham | hma
      · refine ⟨M, by simp [hM], ?_⟩
        intro x hx
        rcases List.mem_cons.mp hx with rfl | hx'
        · exact ham
        · exact hbound x hx'
      · refine ⟨a, by simp, ?_⟩
        intro x hx
        rcases List.mem_cons.mp hx with rfl | hx'
        · exact le_refl x
        · exact le_trans (hbound x hx') hma

theorem kept_count_distinct :
    ∀ (n : Nat) (vals : List Int), vals.length = n → vals.Nodup →
      ∀ hs : Nat,
      (vals.filter (fun c => decide (countGreater vals c + 1 ≤ hs))).length =
        min hs vals.length := by
  intro n
  induction n with
  | zero =>
    intro vals hlen _ hs
    rw [List.length_eq_zero.mp hlen]
    simp
  | succ n ih =>
    intro vals hlen hnd hs
    have hne : vals ≠ [] := by
      intro h
      rw [h] at hlen
      simp at hlen
    obtain ⟨M, hM, hmax⟩ := exists_max_int vals hne
    have hperm : vals.Perm (M :: vals.erase M) := List.perm_cons_erase hM
    set rest := vals.erase M with hrest
    have hnd' : (M :: rest).Nodup := hperm.nodup hnd
    have hMnotin : M ∉ rest := (List.nodup_cons.mp hnd').1
    have hndrest : rest.Nodup := (List.nodup_cons.mp hnd').2
    have hlt : ∀ b ∈ rest, b < M := by
      intro b hb
      have hble : b ≤ M := hmax b (hperm.mem_iff.mpr (by simp [hb]))
      have hbne : b ≠ M := by
        intro hbe
        exact hMnotin (hbe ▸ hb)
      omega
    have hlen' : rest.length = n := by
      have := hperm.length_eq
      simp at this
      omega
    -- countGreater is invariant along the permutation
    have hcg : ∀ c, countGreater vals c = countGreater (M :: rest) c := by
      intro c
      unfold countGreater
      rw [← List.countP_eq_length_filter, ← List.countP_eq_length_filter]
      exact hperm.countP_eq _
    -- the kept count itself transports along the permutation
    have htrans : (vals.filter
        (fun c => decide (countGreater vals c + 1 ≤ hs))).length =
        ((M :: rest).filter
          (fun c => decide (countGreater (M :: rest) c + 1 ≤ hs))).length := by
      rw [← List.countP_eq_length_filter, ← List.countP_eq_length_filter]
      rw [hperm.countP_eq _]
      apply List.countP_congr
      intro c _
      rw [hcg c]
    rw [htrans]
    have hcM : countGreater (M :: rest) M = 0 := by
      unfold countGreater
      have : List.filter (fun d => decide (M < d)) (M :: rest) = [] := by
        rw [List.filter_eq_nil_iff]
        intro d hd
        simp only [decide_eq_true_eq, not_lt]
        rcases List.mem_cons.mp hd with rfl | hd'
        · exact le_refl d
        · exact le_of_lt (hlt d hd')
      rw [this]
      rfl
    have hcx : ∀ x ∈ rest,
        countGreater (M :: rest) x = countGreater rest x + 1 := by
      intro x hx
      unfold countGreater
      rw [List.filter_cons]
      have : decide (x < M) = true := by
        simp only [decide_eq_true_eq]
        exact hlt x hx
      rw [this]
      simp
    rw [List.filter_cons]
    cases hs with
    | zero =>
      have hPv : decide (countGreater (M :: rest) M + 1 ≤ 0) = false := by
        simp
      rw [hPv]
      have hrest0 : List.filter
          (fun c => decide (countGreater (M :: rest) c + 1 ≤ 0)) rest =
          [] := by
        rw [List.filter_eq_nil_iff]
        intro c _
        simp
      rw [hrest0]
      simp
    | succ k =>
      have hPv : decide (countGreater (M :: rest) M + 1 ≤ k + 1) = true := by
        rw [hcM]
        simp
      rw [hPv]
      have hcongr : List.filter
          (fun c => decide (countGreater (M :: rest) c + 1 ≤ k + 1)) rest =
          List.filter (fun c => decide (countGreater rest c + 1 ≤ k)) rest := by
        apply List.filter_congr
        intro x hx
        rw [hcx x hx]
        rw [decide_eq_decide]
        omega
      rw [hcongr]
      simp only [if_true]
      simp only [List.length_cons]
      rw [ih rest hlen' hndrest k]
      rw [hlen']
      have : vals.length = n + 1 := hlen
      rw [this]
      omega

theorem group_filter_swap (joined : List ProfileSourceRow) (p role : String)
    (q q2 : ProfileSourceRow → Bool)
    (hcong : ∀ r, r.puuid = p → r.role = role → q r = q2 r) :
    group_of (joined.filter q) p role = (group_of joined p role).filter q2 := by
  unfold group_of
  rw [List.filter_filter, List.filter_filter]
  apply List.filter_congr
  intro r _
  by_cases hk : r.puuid = p ∧ r.role = role
  · have hkb : (r.puuid == p && r.role == role) = true := by
      simp [hk.1, hk.2]
    rw [hkb, hcong r hk.1 hk.2]
    simp
  · have hkb : (r.puuid == p && r.role == role) = false := by
      rcases not_and_or.mp hk with hp | hr
      · simp [hp]
      · simp [hr]
    rw [hkb]
    simp

theorem windowed_group (rows : List ProfileSourceRow) (hs : Nat)
    (p role : String) :
    group_of (windowed rows hs) p role =
      (group_of (with_opponent rows) p role).filter
        (fun r => decide (dense_rank_desc
          (group_of (with_opponent rows) p role) r ≤ hs)) := by
  unfold windowed
  dsimp only
  exact group_filter_swap (with_opponent rows) p role _ _
    (fun r hp hr => by rw [hp, hr])

theorem kept_eq_min (g : List ProfileSourceRow) (hs : Nat)
    (hnd : (g.map ProfileSourceRow.game_creation).Nodup) :
    (g.filter (fun r => decide (dense_rank_desc g r ≤ hs))).length =
      min hs g.length := by
  have hded : (g.map ProfileSourceRow.game_creation).dedup =
      g.map ProfileSourceRow.game_creation := List.dedup_eq_self.mpr hnd
  have hrank : ∀ r, dense_rank_desc g r =
      countGreater (g.map ProfileSourceRow.game_creation)
        r.game_creation + 1 := by
    intro r
    unfold dense_rank_desc countGreater
    rw [hded]
  have hstep1 : g.filter (fun r => decide (dense_rank_desc g r ≤ hs)) =
      g.filter (fun r => decide (countGreater
        (g.map ProfileSourceRow.game_creation) r.game_creation + 1 ≤ hs)) := by
    apply List.filter_congr
    intro r _
    rw [hrank r]
  rw [hstep1]
  have hstep2 : (g.filter (fun r => decide (countGreater
      (g.map ProfileSourceRow.game_creation) r.game_creation + 1 ≤
        hs))).length =
      ((g.map ProfileSourceRow.game_creation).filter
        (fun c => decide (countGreater
          (g.map ProfileSourceRow.game_creation) c + 1 ≤ hs))).length := by
    rw [← List.countP_eq_length_filter, ← List.countP_eq_length_filter]
    rw [List.countP_map]
    rfl
  rw [hstep2]
  rw [kept_count_distinct (g.map ProfileSourceRow.game_creation).length _
    rfl hnd hs]
  rw [List.length_map]

/-- Claim C8 counterexample: two ranked rows of player P in role TOP with
identical game_creation and history_size 1 — the dense descending rank of
both rows is 1, so both are kept and games_used is 2, not
min(history_size, total) = 1. -/
theorem profile_windowing_cex :
    ("P", "TOP") ∈ profile_groups tie_rows 1 1 ∧
    games_used tie_rows 1 "P" "TOP" = 2 ∧
    min 1 (group_of (with_opponent tie_rows) "P" "TOP").length = 1 ∧
    (2 : Nat) ≠ 1 := by
  refine ⟨by decide, by decide, by decide, by decide⟩

/-- Claim C8 (amended): for every (puuid, role) group in the profile
table, games_used is at least min_matches; rows are kept by dense
descending rank on game_creation within the group at most history_size;
and games_used equals min(history_size, group size) provided the group's
game_creation values are pairwise distinct — with ties the dense rank
keeps all tied rows, so games_used can exceed history_size. -/
theorem profile_windowing (rows : List ProfileSourceRow) (hs mm : Nat)
    (p role : String) (hmem : (p, role) ∈ profile_groups rows hs mm) :
    mm ≤ games_used rows hs p role ∧
    (((group_of (with_opponent rows) p role).map
        ProfileSourceRow.game_creation).Nodup →
      games_used rows hs p role =
        min hs (group_of (with_opponent rows) p role).length) := by
  constructor
  · unfold profile_groups at hmem
    have := (List.mem_filter.mp hmem).2
    exact of_decide_eq_true this
  · intro hnd
    unfold games_used
    rw [windowed_group]
    exact kept_eq_min _ hs hnd

theorem profile_windowing_witness :
    1 ≤ games_used distinct_rows 1 "P" "TOP" ∧
    games_used distinct_rows 1 "P" "TOP" =
      min 1 (group_of (with_opponent distinct_rows) "P" "TOP").length :=
  ⟨(profile_windowing distinct_rows 1 1 "P" "TOP" (by decide)).1,
   (profile_windowing distinct_rows 1 1 "P" "TOP" (by decide)).2
     (by decide)⟩
